import Mathlib

/-!
Verification development for the Vallhamragruppen support-bot pipeline.

The Python sources (`fault_reports.py`, `router.py`, `memory.py`,
`security.py`, `escalation.py`, `local_model.py`, `schemas.py`, `bot.py`)
are shallowly embedded below.  Pure functions become Lean functions,
stateful code becomes explicit state passing, the regular expressions of
the source become terms of a small executable regex AST (`RE`) matched by
a priority-ordered backtracking matcher, and text is `List Char`
throughout the matcher with `String` at the API boundary.

External collaborators (the Anthropic generation call, the config-file
response templates, SMTP/Sheets dispatch) are modelled as explicit
parameters or boolean effect flags, mirroring exactly where the source
calls out of the pipeline.
-/

namespace SupportBot

/-! ## Characters

`lowerCh` models Python `str.lower` on the alphabet actually used by this
code base (ASCII plus the Swedish letters Å/Ä/Ö and É); `isWordChar`
models `\w` of Python `re` (letters, digits, underscore — every non-ASCII
character occurring in the sources and in our concrete inputs is a
letter, so non-ASCII code points count as word characters). -/

def lowerCh (c : Char) : Char :=
  if c = 'Å' then 'å'
  else if c = 'Ä' then 'ä'
  else if c = 'Ö' then 'ö'
  else if c = 'É' then 'é'
  else if 'A' ≤ c ∧ c ≤ 'Z' then Char.ofNat (c.toNat + 32)
  else c

def upperCh (c : Char) : Char :=
  if c = 'å' then 'Å'
  else if c = 'ä' then 'Ä'
  else if c = 'ö' then 'Ö'
  else if c = 'é' then 'É'
  else if 'a' ≤ c ∧ c ≤ 'z' then Char.ofNat (c.toNat - 32)
  else c

def isAsciiUpper (c : Char) : Bool := 'A' ≤ c && c ≤ 'Z'
def isAsciiLower (c : Char) : Bool := 'a' ≤ c && c ≤ 'z'
def isDigitCh (c : Char) : Bool := '0' ≤ c && c ≤ '9'

def isWordChar (c : Char) : Bool :=
  isAsciiUpper c || isAsciiLower c || isDigitCh c || c = '_' || decide (c.toNat ≥ 128)

/-- `\s` of Python `re`. -/
def isSpaceCh (c : Char) : Bool :=
  c = ' ' || c = '\t' || c = '\n' || c = '\x0b' || c = '\x0c' || c = '\r'

def pyLower (s : List Char) : List Char := s.map lowerCh

def pyLowerS (s : String) : List Char := pyLower s.toList

/-- Python truthiness of a string. -/
def pyTruthyS (s : String) : Bool := !s.isEmpty

/-- Python truthiness of an optional string (`None` and `""` are falsy). -/
def pyTruthyO : Option String → Bool
  | none => false
  | some s => !s.isEmpty

/-- Python `x or y` on optional strings: `y` when `x` is falsy. -/
def pyOr (a b : Option String) : Option String :=
  if pyTruthyO a then a else b

/-! ## A small regex AST

Exactly the constructs appearing in the sources' patterns: literals,
character classes, sequencing, prioritized alternation, `?`, `*`/`*?`,
`+`/`+?`, bounded repetition `{lo,hi}` over single-character classes,
the word boundary `\b` and the end anchor `$`.  Every quantifier in the
source applies to a single-character atom, which the AST reflects. -/

inductive RE where
  | eps
  | fail
  | lit (c : Char)
  | cls (p : Char → Bool)
  | seq (a b : RE)
  | alt (a b : RE)
  | opt (a : RE)
  | star (p : Char → Bool) (lazy : Bool)
  | plus (p : Char → Bool) (lazy : Bool)
  | rep (p : Char → Bool) (lo : Nat) (hi : Option Nat)
  | wb
  | eos

/-- Class membership, optionally case-insensitive (Python `re.IGNORECASE`). -/
def clsMem (ci : Bool) (p : Char → Bool) (c : Char) : Bool :=
  p c || (ci && (p (lowerCh c) || p (upperCh c)))

/-- Literal comparison, optionally case-insensitive. -/
def litEq (ci : Bool) (c d : Char) : Bool :=
  c = d || (ci && lowerCh c = lowerCh d)

/-- Matcher states: the character just before the current position (for
`\b`) and the remaining input. -/
abbrev MState := Option Char × List Char

def isWordAt : Option Char → Bool
  | none => false
  | some c => isWordChar c

def isWordHead : List Char → Bool
  | [] => false
  | c :: _ => isWordChar c

def atBoundary (prev : Option Char) (rest : List Char) : Bool :=
  isWordAt prev != isWordHead rest

/-- States reachable by `p*` (or `p*?`), in backtracking priority order:
greedy lists longer consumptions first, lazy shorter first. -/
def starStates (ci : Bool) (p : Char → Bool) (lazy : Bool) :
    Option Char → List Char → List MState
  | prev, [] => [(prev, [])]
  | prev, c :: cs =>
    if clsMem ci p c then
      if lazy then (prev, c :: cs) :: starStates ci p lazy (some c) cs
      else starStates ci p lazy (some c) cs ++ [(prev, c :: cs)]
    else [(prev, c :: cs)]

/-- States reachable by consuming up to `hi` further class characters
(greedy: longest first), `hi = none` meaning unbounded. -/
def repUpTo (ci : Bool) (p : Char → Bool) :
    Option Nat → Option Char → List Char → List MState
  | none, prev, rest => starStates ci p false prev rest
  | some 0, prev, rest => [(prev, rest)]
  | some _, prev, [] => [(prev, [])]
  | some (h + 1), prev, c :: cs =>
    (if clsMem ci p c then repUpTo ci p (some h) (some c) cs else []) ++
      [(prev, c :: cs)]

/-- States reachable by `p{lo,hi}` (greedy), `hi = none` meaning unbounded. -/
def repStates (ci : Bool) (p : Char → Bool) :
    Nat → Option Nat → Option Char → List Char → List MState
  | 0, hi, prev, rest => repUpTo ci p hi prev rest
  | _ + 1, _, _, [] => []
  | l + 1, hi, _, c :: cs =>
    if clsMem ci p c then repStates ci p l (hi.map (· - 1)) (some c) cs else []

/-- All end states of a match of `r` starting at the current position,
in backtracking priority order (leftmost alternative first, greedy
quantifiers longest first). -/
def mEnds (ci : Bool) : RE → Option Char → List Char → List MState
  | .eps, prev, rest => [(prev, rest)]
  | .fail, _, _ => []
  | .lit c, _, rest =>
    match rest with
    | [] => []
    | d :: ds => if litEq ci c d then [(some d, ds)] else []
  | .cls p, _, rest =>
    match rest with
    | [] => []
    | d :: ds => if clsMem ci p d then [(some d, ds)] else []
  | .seq a b, prev, rest =>
    (mEnds ci a prev rest).flatMap fun s => mEnds ci b s.1 s.2
  | .alt a b, prev, rest => mEnds ci a prev rest ++ mEnds ci b prev rest
  | .opt a, prev, rest => mEnds ci a prev rest ++ [(prev, rest)]
  | .star p lz, prev, rest => starStates ci p lz prev rest
  | .plus _ _, _, [] => []
  | .plus p lz, _, c :: cs =>
    if clsMem ci p c then starStates ci p lz (some c) cs else []
  | .rep p lo hi, prev, rest => repStates ci p lo hi prev rest
  | .wb, prev, rest => if atBoundary prev rest then [(prev, rest)] else []
  | .eos, prev, rest => if rest.isEmpty then [(prev, rest)] else []

/-- `re.search`: does `r` match anywhere in the input? -/
def reSearchAux (ci : Bool) (r : RE) : Option Char → List Char → Bool
  | prev, [] => !(mEnds ci r prev []).isEmpty
  | prev, c :: cs =>
    !(mEnds ci r prev (c :: cs)).isEmpty || reSearchAux ci r (some c) cs

def reSearch (ci : Bool) (r : RE) (s : List Char) : Bool :=
  reSearchAux ci r none s

/-- `re.search(...).group(0)` of the leftmost, highest-priority match. -/
def reFindAux (ci : Bool) (r : RE) : Option Char → List Char → Option (List Char)
  | prev, [] =>
    match mEnds ci r prev [] with
    | _ :: _ => some []
    | [] => none
  | prev, c :: cs =>
    match mEnds ci r prev (c :: cs) with
    | (_, rem) :: _ => some ((c :: cs).take ((c :: cs).length - rem.length))
    | [] => reFindAux ci r (some c) cs

def reFind (ci : Bool) (r : RE) (s : List Char) : Option String :=
  (reFindAux ci r none s).map fun cs => String.mk cs

/-! ### Pattern-building helpers -/

/-- A sequence of literal characters. -/
def strRE (s : String) : RE := (s.toList.map RE.lit).foldr .seq .eps

/-- Prioritized alternation of a list of branches (empty list never matches). -/
def altl : List RE → RE
  | [] => .fail
  | [r] => r
  | r :: rs => .alt r (altl rs)

/-- Concatenation of a list of regexes. -/
def catRE (rs : List RE) : RE := rs.foldr .seq .eps

/-- `\b( ... | ... )\b`. -/
def wrd (ws : List RE) : RE := catRE [.wb, altl ws, .wb]

/-- `.` (any character except a newline). -/
def anyNoNl (c : Char) : Bool := c != '\n'

/-- `.*` -/
def gap : RE := .star anyNoNl false

/-- `.*?` -/
def gapL : RE := .star anyNoNl true

/-- `.?` -/
def anyOpt : RE := .opt (.cls anyNoNl)

/-! ## `fault_reports.py` — urgency detection, categories, report collection -/

inductive UrgencyLevel where
  | low | medium | high | critical
deriving DecidableEq

inductive FaultCategory where
  | water | electrical | heating | security | structural | appliance | noise | other
deriving DecidableEq

/-- `FaultReportSystem.detect_urgency`, CRITICAL tier patterns. -/
def critical_patterns : List RE :=
  [ wrd [strRE "översvämning",
         catRE [altl [strRE "akut", strRE "stort", strRE "forsar", strRE "strömmar"],
                gap, strRE "vattenläcka"],
         catRE [strRE "vattenläcka", gap,
                altl [strRE "akut", strRE "stort", strRE "forsar", strRE "strömmar"]],
         catRE [strRE "brustet", gap, strRE "rör"],
         catRE [strRE "vatten", gap, altl [strRE "står", strRE "forsar"]]],
    wrd [strRE "brinner", strRE "brand", strRE "gasläcka",
         catRE [strRE "gas", gap, strRE "luktar"],
         strRE "eld", strRE "rök", catRE [strRE "luktar", gap, strRE "gas"]],
    wrd [catRE [strRE "låst", gap, strRE "ute"], strRE "utelåst",
         catRE [strRE "kommer", gap, strRE "inte", gap, strRE "in"],
         catRE [strRE "tappat", gap, strRE "nyckel"],
         catRE [strRE "nyckel", gap, strRE "borta"],
         catRE [strRE "glömde", gap, strRE "nyckel"],
         catRE [strRE "låset", gap, strRE "går", gap, strRE "inte"]],
    wrd [strRE "inbrott", strRE "skadegörelse", strRE "krossat",
         catRE [strRE "försöker", gap, strRE "ta", gap, strRE "sig"]],
    catRE [.wb, altl [strRE "akut", strRE "kritiskt", strRE "oj", strRE "hjälp",
                      strRE "nödan", strRE "tvingas"], .wb,
           .plus (fun c => c = '!') false] ]

/-- `FaultReportSystem.detect_urgency`, HIGH tier patterns. -/
def high_patterns : List RE :=
  [ wrd [catRE [strRE "ingen", gap, strRE "varmvatten"],
         catRE [strRE "inget", gap, strRE "vatten"],
         catRE [strRE "vatten", gap, strRE "saknas"],
         catRE [strRE "kranen", gap, strRE "ger", gap, strRE "inget"]],
    wrd [catRE [strRE "ingen", gap, strRE "värme"],
         catRE [strRE "elementen", gap, strRE "kalla"],
         catRE [strRE "kyla", gap, strRE "inomhus"],
         catRE [strRE "fryser", gap, strRE "inomhus"],
         catRE [strRE "termostat", gap, strRE "inte"],
         catRE [strRE "värme", gap, strRE "ej"]],
    wrd [catRE [strRE "lås", gap, strRE "gått", gap, strRE "sönder"],
         catRE [strRE "nyckel", gap, strRE "fast"],
         catRE [strRE "dörr", gap, strRE "går", gap, strRE "inte", gap, strRE "öppna"]],
    wrd [catRE [strRE "ingen", gap, strRE "ström"], strRE "strömavbrott",
         catRE [strRE "elektricitet", gap, strRE "borta"],
         catRE [strRE "själva", gap, strRE "fastigheten", gap, strRE "ström"]] ]

/-- `FaultReportSystem.detect_urgency`, MEDIUM tier patterns. -/
def medium_patterns : List RE :=
  [ wrd [strRE "droppar", strRE "läcker", strRE "kran", strRE "droppande",
         strRE "läcker", catRE [strRE "lite", gap, strRE "vatten"]],
    wrd [strRE "låter", strRE "buller", catRE [strRE "konstig", gap, strRE "ljud"],
         strRE "problem", catRE [strRE "fungerar", gap, strRE "dåligt"]],
    wrd [strRE "granne", strRE "grannar", strRE "musik", strRE "stör", strRE "bråk",
         strRE "fest", strRE "partaj", strRE "skrik", strRE "ljud",
         catRE [strRE "hög", gap], strRE "natt"],
    wrd [strRE "anmälan", strRE "felanmälan", strRE "anmäla", strRE "reparation",
         strRE "trasig", strRE "trasigt", catRE [strRE "fungerar", gap, strRE "ej"],
         catRE [strRE "gått", gap, strRE "sönder"]] ]

/-- `FaultReportSystem.detect_urgency`: the first tier with a matching
pattern wins, checked CRITICAL, then HIGH, then MEDIUM, default LOW. -/
def detect_urgency (text : String) : UrgencyLevel :=
  let t := pyLowerS text
  if critical_patterns.any fun p => reSearch false p t then .critical
  else if high_patterns.any fun p => reSearch false p t then .high
  else if medium_patterns.any fun p => reSearch false p t then .medium
  else .low

/-- `FaultReportSystem.category_patterns` in dict insertion order. -/
def category_patterns : List (FaultCategory × List RE) :=
  [ (.water,
     [altl [strRE "vatten", strRE "avlopp", strRE "diskmaskin", strRE "tvättmaskin",
            strRE "kran", strRE "toalett", strRE "spola", strRE "läcker", strRE "droppar"],
      altl [strRE "water", strRE "drain", strRE "dishwasher",
            catRE [strRE "washing", gapL, strRE "machine"], strRE "faucet",
            strRE "toilet", strRE "leak", strRE "drip"]]),
    (.electrical,
     [altl [strRE "ström", strRE "ljus", strRE "lampa", strRE "uttag", strRE "brytare",
            strRE "säkring", strRE "elektrisk", strRE "glimra", strRE "strömavbrott"],
      altl [strRE "power", strRE "electric", strRE "light", strRE "lamp", strRE "outlet",
            strRE "switch", strRE "fuse", strRE "spark", strRE "blackout"]]),
    (.heating,
     [altl [strRE "element", strRE "ventilation", strRE "termostat", strRE "radiator",
            catRE [strRE "kyla", gapL, strRE "inomhus"],
            catRE [strRE "fryser", gapL, strRE "inomhus"],
            catRE [strRE "ingen", gap, strRE "värme"]],
      altl [strRE "heating", strRE "radiator", strRE "thermostat",
            catRE [strRE "freezing", gapL, strRE "inside"],
            catRE [strRE "no", gapL, strRE "heat"]]]),
    (.security,
     [altl [strRE "utelåst", catRE [strRE "låst", gap, strRE "ute"], strRE "nyckel",
            strRE "lås", strRE "inbrott", strRE "skadegörelse", strRE "larm"],
      altl [catRE [strRE "lock", gapL, strRE "out"],
            catRE [strRE "locked", gapL, strRE "out"],
            catRE [strRE "break", anyOpt, strRE "in"],
            strRE "burglary", strRE "vandalism", strRE "alarm"]]),
    (.structural,
     [altl [strRE "tak", strRE "vägg", strRE "golv", strRE "taklucka", strRE "spricka",
            strRE "skada", strRE "väggbeklädnad"],
      altl [strRE "roof", strRE "wall", strRE "floor", strRE "ceiling", strRE "crack",
            strRE "damage"]]),
    (.appliance,
     [altl [strRE "spis", strRE "ugn", strRE "kylskåp", strRE "frys", strRE "diskmaskin",
            strRE "tvättmaskin", strRE "torktumlare"],
      altl [strRE "stove", strRE "oven", strRE "fridge", strRE "dishwasher",
            catRE [strRE "washing", gapL, strRE "machine"], strRE "dryer"]]),
    (.noise,
     [altl [strRE "granne", strRE "grannar", strRE "stör", strRE "musik", strRE "buller",
            strRE "ljud", catRE [strRE "hög", gap], strRE "horn", strRE "skrik",
            strRE "bråk", strRE "fest", strRE "partaj", strRE "duns", strRE "bank",
            strRE "smäll"],
      altl [strRE "neighbor", strRE "noise", strRE "loud", strRE "music", strRE "party",
            strRE "shouting", strRE "fighting"]]) ]

/-- `FaultReportSystem.detect_category`: per-category count of matching
patterns; the maximum wins, first in insertion order on ties (Python
`max(scores, key=scores.get)`); no positive score gives OTHER. -/
def detect_category (text : String) : FaultCategory :=
  let t := pyLowerS text
  let scores := category_patterns.filterMap fun (cat, ps) =>
    let score := (ps.filter fun p => reSearch false p t).length
    if score > 0 then some (cat, score) else none
  match scores with
  | [] => .other
  | s :: ss => (ss.foldl (fun best x => if x.2 > best.2 then x else best) s).1

/-- The `FaultReport` dataclass.  `report_id` and `timestamp` are
datetime-derived in the source and are supplied by the caller here. -/
structure FaultReport where
  report_id : String
  session_id : String
  category : FaultCategory
  urgency : UrgencyLevel
  description : String
  location : String := ""
  reporter_name : Option String := none
  reporter_email : Option String := none
  reporter_phone : Option String := none
  property_id : Option String := none
  photos : List String := []
  timestamp : String := ""
  status : String := "collecting"
deriving DecidableEq

/-- `FaultReport.is_complete`: description, location and at least one
contact channel present (Python truthiness). -/
def FaultReport.is_complete (r : FaultReport) : Bool :=
  pyTruthyS r.description && pyTruthyS r.location &&
    (pyTruthyO r.reporter_email || pyTruthyO r.reporter_phone)

/-! ### `FaultReportSystem._extract_info_from_message` -/

/-- Info extracted from a message; the fault-report extractor never
produces a name (it only has email/phone/location patterns). -/
structure Extracted where
  email : Option String := none
  phone : Option String := none
  location : Option String := none
  name : Option String := none
deriving DecidableEq

/-- `[A-Za-z0-9._%+-]` -/
def emailLocalCh (c : Char) : Bool :=
  isAsciiUpper c || isAsciiLower c || isDigitCh c ||
    c = '.' || c = '_' || c = '%' || c = '+' || c = '-'

/-- `[A-Za-z0-9.-]` -/
def emailDomainCh (c : Char) : Bool :=
  isAsciiUpper c || isAsciiLower c || isDigitCh c || c = '.' || c = '-'

/-- `[A-Z|a-z]` (the class in the source literally contains a pipe). -/
def emailTldCh (c : Char) : Bool := isAsciiUpper c || isAsciiLower c || c = '|'

/-- `\b[A-Za-z0-9._%+-]+@[A-Za-z0-9.-]+\.[A-Z|a-z]{2,}\b` -/
def email_pattern : RE :=
  catRE [.wb, .plus emailLocalCh false, .lit '@', .plus emailDomainCh false,
         .lit '.', .rep emailTldCh 2 none, .wb]

/-- `[- ]` -/
def dashSpCh (c : Char) : Bool := c = '-' || c = ' '

/-- `[0,2,3,6,9]` (the class in the source literally contains commas). -/
def phone3Ch (c : Char) : Bool :=
  c = '0' || c = ',' || c = '2' || c = '3' || c = '6' || c = '9'

/-- The three Swedish phone-number patterns, in source order. -/
def phone_patterns : List RE :=
  [ catRE [.wb, .lit '0', .rep isDigitCh 1 (some 3), .opt (.cls dashSpCh),
           .rep isDigitCh 3 (some 3), .opt (.cls dashSpCh),
           .rep isDigitCh 2 (some 2), .opt (.cls dashSpCh),
           .rep isDigitCh 2 (some 2), .wb],
    catRE [.wb, .lit '0', .rep isDigitCh 2 (some 3), .opt (.cls dashSpCh),
           .rep isDigitCh 5 (some 7), .wb],
    catRE [.wb, .lit '0', .lit '7', .cls phone3Ch, .opt (.cls dashSpCh),
           .rep isDigitCh 3 (some 3), .opt (.cls dashSpCh),
           .rep isDigitCh 2 (some 2), .opt (.cls dashSpCh),
           .rep isDigitCh 2 (some 2), .wb] ]

/-- `[A-Za-z0-9\s]` -/
def alnumSpCh (c : Char) : Bool :=
  isAsciiUpper c || isAsciiLower c || isDigitCh c || isSpaceCh c

/-- The five location/apartment patterns, in source order (all searched
with `re.IGNORECASE`). -/
def location_patterns : List RE :=
  [ catRE [altl [strRE "lägenhetsnummer", strRE "lgh", strRE "lägenhet"],
           .star isSpaceCh false, .opt (.lit ':'), .star isSpaceCh false,
           .plus alnumSpCh true,
           altl [.lit '.', .lit ',', .cls isSpaceCh, .eos]],
    catRE [.cls isAsciiUpper, .plus isAsciiLower false,
           altl [strRE "sgatan", strRE "vägen", strRE "gatan"],
           .star isSpaceCh false, .plus isDigitCh false],
    catRE [altl [.lit 'i', strRE "på"], .plus isSpaceCh false,
           altl [strRE "lägenhet", strRE "lgh"], .star isSpaceCh false,
           .plus isDigitCh false],
    catRE [altl [strRE "bor i", strRE "adress", strRE "ligger"],
           .plus isSpaceCh false,
           .opt (catRE [.cls isAsciiUpper, .plus isAsciiLower false,
                        altl [strRE "sgatan", strRE "vägen", strRE "gatan"]]),
           .star isSpaceCh false, .opt (.plus isDigitCh false)],
    catRE [strRE "lgh", .star isSpaceCh false, .plus isDigitCh false] ]

/-- Is the first list a prefix of the second? -/
def prefixOfB : List Char → List Char → Bool
  | [], _ => true
  | _ :: _, [] => false
  | a :: as, b :: bs => a = b && prefixOfB as bs

/-- Python `x in y` on strings: contiguous-substring containment. -/
def substrOf (needle : List Char) : List Char → Bool
  | [] => needle.isEmpty
  | c :: cs => prefixOfB needle (c :: cs) || substrOf needle cs

/-- Python `str.strip()`. -/
def pyStrip (s : String) : String :=
  String.mk ((s.toList.dropWhile isSpaceCh).reverse.dropWhile isSpaceCh).reverse

/-- First pattern whose search succeeds, returning `group(0)`. -/
def firstFind (ci : Bool) (ps : List RE) (s : List Char) : Option String :=
  match ps with
  | [] => none
  | p :: rest =>
    match reFind ci p s with
    | some m => some m
    | none => firstFind ci rest s

/-- `FaultReportSystem._extract_info_from_message`. -/
def extract_info_from_message (message : String) : Extracted :=
  let s := message.toList
  { email := reFind false email_pattern s
    phone := firstFind false phone_patterns s
    location := (firstFind true location_patterns s).map pyStrip
    name := none }

/-! ### `FaultReportSystem.collect_fault_report` -/

/-- The keyed response templates the system formats from its config in
`__init__` (the config file is external data, so the strings are
parameters here); `info_collected` and `waiting_for_info` are string
literals in the source. -/
structure FaultResponses where
  fault_water_critical : String
  fault_lockout : String
  fault_general_critical : String
  fault_water_high : String
  fault_heating_high : String
  fault_electric_high : String
  fault_general_high : String
  fault_water_medium : String
  fault_appliance_medium : String
  fault_noise_medium : String
  fault_general_medium : String
  fault_general_low : String
  info_collected : String :=
    "Tack! Jag har nu all information jag behöver. 📝 Felanmälan är skapad och kommer skickas till fastighetsförvaltaren. Vi återkommer så snart vi kan!"
  waiting_for_info : String := "Uppfattat, jag noterar detta. "

/-- `FaultReportSystem.get_response_for_urgency`. -/
def get_response_for_urgency (resp : FaultResponses)
    (urgency : UrgencyLevel) (category : FaultCategory) : String :=
  match urgency with
  | .critical =>
    match category with
    | .water => resp.fault_water_critical
    | .security => resp.fault_lockout
    | _ => resp.fault_general_critical
  | .high =>
    match category with
    | .water => resp.fault_water_high
    | .heating => resp.fault_heating_high
    | .electrical => resp.fault_electric_high
    | _ => resp.fault_general_high
  | .medium =>
    match category with
    | .water => resp.fault_water_medium
    | .appliance => resp.fault_appliance_medium
    | .noise => resp.fault_noise_medium
    | _ => resp.fault_general_medium
  | .low => resp.fault_general_low

/-- `FaultReportSystem.should_escalate_immediately`. -/
def should_escalate_immediately (urgency : UrgencyLevel) : Bool :=
  urgency = .critical || urgency = .high

/-- `FaultReportSystem.get_collection_questions`. -/
def get_collection_questions (report : FaultReport) : List String :=
  (if !pyTruthyS report.location then
     ["Vilken adress och lägenhetsnummer gäller det?"] else []) ++
  (if !pyTruthyO report.reporter_email && !pyTruthyO report.reporter_phone then
     ["Vilket telefonnummer eller e-postadress kan vi nå dig på?"] else [])

/-- `"\n\n" + "\n".join(f"{i+1}. {q}" for i, q in enumerate(questions))`. -/
def follow_up_for (report : FaultReport) : String :=
  "\n\n" ++ String.intercalate "\n"
    ((get_collection_questions report).enum.map fun iq =>
      toString (iq.1 + 1) ++ ". " ++ iq.2)

/-- Update of a pending report from a follow-up message (lines 261-268 of
the source): each field is filled from the extracted info only when the
extracted value is truthy and the field is currently falsy. -/
def mergeExtracted (report : FaultReport) (extracted : Extracted) : FaultReport :=
  let report :=
    if pyTruthyO extracted.location && !pyTruthyS report.location then
      { report with location := extracted.location.getD "" }
    else report
  let report :=
    if pyTruthyO extracted.email && !pyTruthyO report.reporter_email then
      { report with reporter_email := extracted.email }
    else report
  let report :=
    if pyTruthyO extracted.phone && !pyTruthyO report.reporter_phone then
      { report with reporter_phone := extracted.phone }
    else report
  let report :=
    if pyTruthyO extracted.name && !pyTruthyO report.reporter_name then
      { report with reporter_name := extracted.name }
    else report
  report

/-- The description append of the merge branch (lines 270-275). -/
def appendDescription (report : FaultReport) (message : String) : FaultReport :=
  if !substrOf (pyLowerS message) (pyLowerS report.description) then
    if pyTruthyS report.description then
      { report with description :=
          report.description ++ "\n\nTilläggsinfo: " ++ message }
    else { report with description := message }
  else report

/-- Session-derived data handed to `collect_fault_report` by the bot. -/
structure SessionData where
  session_id : String := "unknown"
  customer_name : Option String := none
  customer_email : Option String := none
  customer_phone : Option String := none

/-- The dict returned by `collect_fault_report`; `email_sent` and
`sheet_logged` record that `_send_report_email` / `_log_to_google_sheets`
(the notification collaborators) were invoked. -/
structure CollectResult where
  report : FaultReport
  response : String
  escalate_immediately : Bool
  collect_more_info : Bool
  is_new_report : Bool
  is_complete : Bool
  email_sent : Bool
  sheet_logged : Bool

/-- Association-map helpers for `pending_reports` (a dict keyed by
session id). -/
def lookupA (m : List (String × FaultReport)) (k : String) : Option FaultReport :=
  (m.find? fun e => e.1 = k).map Prod.snd

def insertA (m : List (String × FaultReport)) (k : String) (v : FaultReport) :
    List (String × FaultReport) :=
  if (m.find? fun e => e.1 = k).isSome then
    m.map fun e => if e.1 = k then (k, v) else e
  else m ++ [(k, v)]

def eraseA (m : List (String × FaultReport)) (k : String) :
    List (String × FaultReport) :=
  m.filter fun e => e.1 ≠ k

/-- `FaultReportSystem.collect_fault_report`.  `pending` is the
`pending_reports` dict; `new_report_id` stands for the datetime-derived
id the source generates for a fresh report.  Returns the result dict and
the updated `pending_reports`. -/
def collect_fault_report (resp : FaultResponses) (new_report_id : String)
    (pending : List (String × FaultReport)) (message : String)
    (session_data : SessionData) :
    CollectResult × List (String × FaultReport) :=
  let session_id := session_data.session_id
  match lookupA pending session_id with
  | some report0 =>
    let extracted := extract_info_from_message message
    let report := appendDescription (mergeExtracted report0 extracted) message
    if report.is_complete then
      let report := { report with status := "complete" }
      ({ report := report
         response := resp.info_collected
         escalate_immediately := should_escalate_immediately report.urgency
         collect_more_info := false
         is_new_report := false
         is_complete := true
         email_sent := true
         sheet_logged := true }, eraseA pending session_id)
    else
      ({ report := report
         response := resp.waiting_for_info ++ follow_up_for report
         escalate_immediately := false
         collect_more_info := true
         is_new_report := false
         is_complete := false
         email_sent := false
         sheet_logged := false }, insertA pending session_id report)
  | none =>
    let urgency := detect_urgency message
    let category := detect_category message
    let response := get_response_for_urgency resp urgency category
    let extracted := extract_info_from_message message
    let report : FaultReport :=
      { report_id := new_report_id
        session_id := session_id
        category := category
        urgency := urgency
        description := message
        location := extracted.location.getD ""
        reporter_name := pyOr session_data.customer_name extracted.name
        reporter_email := pyOr session_data.customer_email extracted.email
        reporter_phone := pyOr session_data.customer_phone extracted.phone }
    if report.is_complete then
      let report := { report with status := "complete" }
      ({ report := report
         response := resp.info_collected
         escalate_immediately := should_escalate_immediately urgency
         collect_more_info := false
         is_new_report := true
         is_complete := true
         email_sent := true
         sheet_logged := true }, pending)
    else
      ({ report := report
         response := response ++ follow_up_for report
         escalate_immediately := should_escalate_immediately urgency
         collect_more_info := true
         is_new_report := true
         is_complete := false
         email_sent := false
         sheet_logged := false }, insertA pending session_id report)

/-! ## `memory.py` — conversation sessions -/

/-- A message appended to a session (`ConversationSession.add_message`);
the timestamp is datetime-derived in the source and supplied here. -/
structure SessionMessage where
  role : String
  content : String
  timestamp : String := ""
  meta_intent : Option String := none
  meta_sentiment : Option String := none
  meta_lead_score : Option Int := none

/-- The `ConversationSession` dataclass (conversation-state scalars). -/
structure ConversationSession where
  session_id : String
  started_at : String := ""
  last_activity : String := ""
  messages : List SessionMessage := []
  current_intent : Option String := none
  current_sentiment : Option String := none
  lead_score : Int := 1
  escalation_count : Int := 0
  resolved : Bool := false

/-- `ConversationMemory.add_message` (lines 104-123): conditionally
update current intent/sentiment (Python truthiness) and take the running
maximum of the lead score (guarded by `is not None`), then append the
message. -/
def memory_add_message (sess : ConversationSession) (role content ts : String)
    (intent : Option String := none) (sentiment : Option String := none)
    (lead_score : Option Int := none) : ConversationSession :=
  let sess := if pyTruthyO intent then { sess with current_intent := intent } else sess
  let sess := if pyTruthyO sentiment then { sess with current_sentiment := sentiment } else sess
  let sess :=
    match lead_score with
    | some n => { sess with lead_score := max sess.lead_score n }
    | none => sess
  { sess with
    messages := sess.messages ++
      [{ role := role, content := content, timestamp := ts,
         meta_intent := if pyTruthyO intent then intent else none,
         meta_sentiment := if pyTruthyO sentiment then sentiment else none,
         meta_lead_score := lead_score }]
    last_activity := ts }

/-- One `add_message` call's classification payload, for reasoning about
sequences of updates. -/
structure MemoryUpdate where
  role : String
  content : String
  ts : String
  intent : Option String := none
  sentiment : Option String := none
  lead_score : Option Int := none

def applyUpdate (sess : ConversationSession) (u : MemoryUpdate) : ConversationSession :=
  memory_add_message sess u.role u.content u.ts u.intent u.sentiment u.lead_score

/-! ## `security.py` — injection filter and rate limiter -/

inductive SecurityLevel where
  | safe | suspicious | blocked
deriving DecidableEq

/-- `AntiPromptInjection.injection_patterns` (all compiled with
`re.IGNORECASE`), in source order. -/
def injection_patterns : List RE :=
  [ catRE [altl [strRE "ignore", strRE "forget", strRE "disregard", strRE "clear"], gap,
           altl [strRE "previous", strRE "all", strRE "above", strRE "system",
                 strRE "prompt", strRE "instructions"]],
    catRE [altl [strRE "override", strRE "bypass", strRE "circumvent"], gap,
           altl [strRE "system", strRE "prompt", strRE "instructions", strRE "rules"]],
    catRE [altl [strRE "new", strRE "updated", strRE "revised"], gap,
           altl [strRE "instructions", strRE "prompt", strRE "system"]],
    altl [strRE "you are", strRE "you\x27re now", strRE "act as",
          strRE "pretend to be", strRE "roleplay as"],
    catRE [altl [strRE "simulate", strRE "imitate", strRE "mimic"], gap,
           altl [strRE "system", strRE "model", strRE "assistant"]],
    catRE [altl [strRE "show", strRE "tell", strRE "reveal", strRE "display",
                 strRE "print", strRE "output"], gap,
           altl [strRE "system", strRE "prompt", strRE "instructions", strRE "rules"]],
    catRE [altl [strRE "what", strRE "how"], gap,
           altl [strRE "system", strRE "prompt", strRE "instructions", strRE "rules",
                 strRE "configured"]],
    catRE [altl [strRE "dump", strRE "leak", strRE "extract"], gap,
           altl [strRE "system", strRE "prompt", strRE "instructions"]],
    altl [strRE "jailbreak", strRE "jail break", strRE "dan", strRE "developer mode",
          strRE "unrestricted"],
    altl [strRE "no constraints", strRE "without rules", strRE "bypass filters",
          strRE "ignore safety"],
    altl [strRE "above instructions", strRE "previous instructions",
          strRE "system message"],
    catRE [altl [strRE "ignorera", strRE "glöm", strRE "strunta"], gap,
           altl [strRE "tidigare", strRE "instruktioner", strRE "regler"]],
    catRE [altl [strRE "visa", strRE "berätta", strRE "avslöja"], gap,
           altl [strRE "system", strRE "instruktioner", strRE "regler"]],
    catRE [altl [strRE "skriv ut", strRE "skriv"], gap,
           altl [strRE "system", strRE "prompt", strRE "instruktioner"]],
    catRE [altl [strRE "output", strRE "return", strRE "respond"], gap,
           altl [strRE "as JSON", strRE "in JSON", strRE "JSON format"]],
    catRE [altl [strRE "begin", strRE "start"], gap,
           altl [catRE [strRE "with ", altl [.lit '"', .lit '\x27']],
                 altl [strRE "Here is", strRE "The following is"]]] ]

/-- `AntiPromptInjection.check`'s lower-threshold suspicious indicators. -/
def suspicious_indicators : List RE :=
  [ altl [strRE "repeat", strRE "copy", strRE "echo"],
    altl [strRE "step by step", strRE "be specific"],
    altl [strRE "from now on", strRE "starting now"],
    altl [strRE "translate", strRE "convert"] ]

/-- Is `c` an uppercase letter (Python `c.isupper() and c.isalpha()` on
the alphabet used here)? -/
def isUpperAlpha (c : Char) : Bool :=
  isAsciiUpper c || c = 'Å' || c = 'Ä' || c = 'Ö' || c = 'É'

/-- `AntiPromptInjection.check`.  The capitalization threshold
`weird_caps > len(message) * 0.3` is stated in the equivalent
cross-multiplied exact form `10 * weird_caps > 3 * len` (the source
compares against the float product `len * 0.3`; the two agree except at
float-rounding boundaries of `0.3`, which no concrete input used here
touches). -/
def injection_check (message : String) : SecurityLevel :=
  let s := message.toList
  if injection_patterns.any fun p => reSearch true p s then .blocked
  else if suspicious_indicators.any fun p => reSearch true p s then .suspicious
  else
    let weird_caps := (s.filter isUpperAlpha).length
    if 10 * weird_caps > 3 * s.length ∧ s.length > 20 then .suspicious
    else .safe

/-- Replace every non-overlapping leftmost match of `r` by `repl`
(Python `pattern.sub`), fuel-bounded by the input length (every pattern
used with it consumes at least one character per match). -/
def reSubAll (ci : Bool) (r : RE) (repl : List Char) :
    Nat → Option Char → List Char → List Char
  | 0, _, rest => rest
  | _ + 1, prev, [] =>
    match mEnds ci r prev [] with
    | _ :: _ => repl
    | [] => []
  | fuel + 1, prev, c :: cs =>
    match mEnds ci r prev (c :: cs) with
    | (pr, rem) :: _ =>
      if rem.length < (c :: cs).length then
        repl ++ reSubAll ci r repl fuel pr rem
      else c :: reSubAll ci r repl fuel (some c) cs
    | [] => c :: reSubAll ci r repl fuel (some c) cs

/-- `AntiPromptInjection.sanitize`: blocked input is emptied, suspicious
input has injection-pattern spans replaced by `[FILTERED]`, safe input
passes through. -/
def sanitize (message : String) : String :=
  match injection_check message with
  | .blocked => ""
  | .suspicious =>
    String.mk (injection_patterns.foldl
      (fun s p => reSubAll true p "[FILTERED]".toList (s.length + 1) none s)
      message.toList)
  | .safe => message

/-- `RateLimiter`: per-identifier request timestamps (seconds, modelled
over ℚ; `time.time()` floats in the source); the defaultdict is a total
map returning `[]` for unseen identifiers. -/
structure RateLimiter where
  max_per_minute : Nat := 60
  max_per_hour : Nat := 1000
  requests : String → List ℚ := fun _ => []

/-- Outcome of `RateLimiter.check`: the allowed flag, optional reason,
and the updated limiter. -/
def rate_check (rl : RateLimiter) (identifier : String) (now : ℚ) :
    Bool × Option String × RateLimiter :=
  let times := (rl.requests identifier).filter fun ts => now - ts < 3600
  let recent_minute := times.filter fun ts => ts > now - 60
  if recent_minute.length ≥ rl.max_per_minute then
    (false, some ("Rate limit exceeded: " ++ toString rl.max_per_minute ++
       " requests per minute"),
     { rl with requests := fun k => if k = identifier then times else rl.requests k })
  else if times.length ≥ rl.max_per_hour then
    (false, some ("Rate limit exceeded: " ++ toString rl.max_per_hour ++
       " requests per hour"),
     { rl with requests := fun k => if k = identifier then times else rl.requests k })
  else
    (true, none,
     { rl with requests := fun k => if k = identifier then times ++ [now] else rl.requests k })

/-- A sequence of `RateLimiter.check` calls for one identifier at the
given times: whether all were allowed, and the final limiter state. -/
def rate_run : RateLimiter → String → List ℚ → Bool × RateLimiter
  | rl, _, [] => (true, rl)
  | rl, identifier, t :: ts =>
    let r := rate_check rl identifier t
    let rest := rate_run r.2.2 identifier ts
    (r.1 && rest.1, rest.2)

/-- `SecurityManager.process_input`: rate limit, then injection check,
then sanitization. -/
def process_input (rl : RateLimiter) (message identifier : String) (now : ℚ) :
    Bool × String × Option String × RateLimiter :=
  match rate_check rl identifier now with
  | (false, reason, rl1) => (false, "", reason, rl1)
  | (true, _, rl1) =>
    if injection_check message = .blocked then
      (false, "", some "Message blocked due to security concerns", rl1)
    else
      (true, sanitize message, none, rl1)

/-! ## `escalation.py` — escalation engine -/

inductive EscalationReason where
  | legal_threat | angry_customer | technical_issue | refund_dispute
  | manager_request | complex_case | billing_error | contractual | unknown
deriving DecidableEq

/-- `EscalationEngine._load_triggers` with its environment-variable
defaults (`ESCALATION_*` unset). -/
structure EscalationTriggers where
  max_conversation_turns : Int := 8
  min_lead_score_for_escalation : Int := 4
  sentiment_escalation : List String := ["angry", "frustrated"]
  legal_keywords : List String :=
    ["lagar", "advokat", "konsumentverket", "polisen", "stämma"]
  manager_keywords : List String := ["chef", "manager", "ledning", "överordnad"]
  billing_keywords : List String :=
    ["faktureringsfel", "felaktig betalning", "dragen pengar"]
  contract_keywords : List String := ["avtal", "kontrakt", "bindande"]

/-- `EscalationEngine.should_escalate`: the configurable first-match-wins
rule chain. -/
def should_escalate (trig : EscalationTriggers) (intent sentiment : String)
    (lead_score conversation_turns : Int) (message : String) :
    Bool × Option EscalationReason :=
  let m := pyLowerS message
  if trig.legal_keywords.any fun w => substrOf w.toList m then
    (true, some .legal_threat)
  else if trig.sentiment_escalation.contains sentiment then
    (true, some .angry_customer)
  else if trig.manager_keywords.any fun w => substrOf w.toList m then
    (true, some .manager_request)
  else if intent = "technical_issue" ∧ conversation_turns > 3 then
    (true, some .technical_issue)
  else if intent = "refund_request" ∧ (sentiment = "frustrated" ∨ sentiment = "angry") then
    (true, some .refund_dispute)
  else if conversation_turns > trig.max_conversation_turns then
    (true, some .complex_case)
  else if trig.billing_keywords.any fun w => substrOf w.toList m then
    (true, some .billing_error)
  else if trig.contract_keywords.any fun w => substrOf w.toList m then
    (true, some .contractual)
  else if lead_score ≥ trig.min_lead_score_for_escalation then
    (false, none)
  else (false, none)

/-- The default rules' user-facing response templates
(`EscalationEngine._load_rules`); `unknown` has no entry in the source's
dict (looking it up would raise), it is never produced by
`should_escalate`. -/
def escalation_response_template : EscalationReason → String
  | .legal_threat => "Jag kopplar dig direkt till vår jurist."
  | .angry_customer => "Jag förstår att du är frustrerad. Låt mig koppla dig till en chef som kan hjälpa dig direkt."
  | .technical_issue => "Detta verkar vara ett tekniskt problem. Jag eskalerar detta till vårt tekniska team."
  | .refund_dispute => "Jag förstår angående din återbetalning. Låt mig koppla dig till vår avdelning som hanterar detta."
  | .manager_request => "Självklart, jag kopplar dig till en chef."
  | .complex_case => "Detta är en lite mer komplex fråga. Låt mig koppla dig till rätt person."
  | .billing_error => "Jag ser att det är ett problem med din betalning. Jag eskalerar detta direkt."
  | .contractual => "När det gäller avtal och kontrakt kopplar jag dig till rätt person."
  | .unknown => ""

/-- `EscalationEngine.get_escalation_response`. -/
def get_escalation_response (reason : EscalationReason)
    (contact_info : Option String) : String :=
  escalation_response_template reason ++
    match contact_info with
    | some c => "\n\nDu kan också nå oss direkt på " ++ c ++ "."
    | none => ""

/-- `EscalationEngine._generate_summary` (the only packet field surfaced
in the bot's response). -/
def escalation_summary (reason : EscalationReason)
    (sentiment : String) (turns : Int) : String :=
  match reason with
  | .legal_threat => "Kunden har nämnt legala åtgärder. Detta kräver omedelbar hantering av jurist."
  | .angry_customer => "Kunden är mycket frustrerad/arg (" ++ sentiment ++ "). Har samtalat i " ++ toString turns ++ " rundor utan lösning."
  | .technical_issue => "Tekniskt problem som inte kunnat lösas efter " ++ toString turns ++ " försök."
  | .refund_dispute => "Kunden vill ha återbetalning och är " ++ sentiment ++ ". Kräver manuell hantering."
  | .manager_request => "Kunden har specifikt begärt att prata med en chef."
  | .complex_case => "Komplext ärende som kräver " ++ toString turns ++ "+ samtal och mänsklig bedömning."
  | .billing_error => "Fel i betalningssystemet som kräver omedelbar åtgärd."
  | .contractual => "Frågor rörande avtal/kontrakt som kräver juridisk kompetens."
  | .unknown => ""

/-! ## `router.py` — intent classifier, sentiment, lead scoring -/

inductive IntentType where
  | pricing_question | how_it_works | booking_request | technical_issue
  | refund_request | complaint | feature_request | integration_question
  | general_inquiry | escalation_demand | legal_threat | unknown
deriving DecidableEq

def IntentType.val : IntentType → String
  | .pricing_question => "pricing_question"
  | .how_it_works => "how_it_works"
  | .booking_request => "booking_request"
  | .technical_issue => "technical_issue"
  | .refund_request => "refund_request"
  | .complaint => "complaint"
  | .feature_request => "feature_request"
  | .integration_question => "integration_question"
  | .general_inquiry => "general_inquiry"
  | .escalation_demand => "escalation_demand"
  | .legal_threat => "legal_threat"
  | .unknown => "unknown"

inductive SentimentType where
  | positive | neutral | slightly_negative | frustrated | angry
deriving DecidableEq

def SentimentType.val : SentimentType → String
  | .positive => "positive"
  | .neutral => "neutral"
  | .slightly_negative => "slightly_negative"
  | .frustrated => "frustrated"
  | .angry => "angry"

/-- `IntelligentRouter._load_intent_patterns`, dict insertion order, each
intent carrying one pattern group of weight 1.0. -/
def intent_patterns : List (IntentType × List RE) :=
  [ (.pricing_question,
     [wrd [strRE "pris"],
      catRE [.wb, strRE "pris", .opt (altl [strRE "er", strRE "ning"]), .wb],
      wrd [strRE "kostar"], wrd [strRE "how much"], wrd [strRE "pricing"],
      wrd [strRE "price"], wrd [strRE "kostnad"]]),
    (.how_it_works,
     [wrd [strRE "fungerar"], wrd [strRE "fungerar det"],
      wrd [strRE "how does it work"],
      catRE [.wb, strRE "how do ", altl [.lit 'i', strRE "you"], .wb],
      catRE [.wb, strRE "vad ", altl [strRE "gör", strRE "kan"], .wb]]),
    (.booking_request,
     [wrd [strRE "boka"], wrd [strRE "möte"], wrd [strRE "meeting"],
      wrd [strRE "call"],
      catRE [.wb, strRE "bok", altl [strRE "a", strRE "ning"], .wb],
      wrd [strRE "schedule"], wrd [strRE "demo"]]),
    (.technical_issue,
     [wrd [strRE "fungerar inte"], wrd [strRE "bugg"], wrd [strRE "error"],
      wrd [strRE "cannot"],
      catRE [.wb, strRE "doesn", .opt (.lit '\x27'), strRE "t work", .wb],
      wrd [strRE "problem"], wrd [strRE "issue"], wrd [strRE "crash"]]),
    (.refund_request,
     [wrd [strRE "refund"], wrd [strRE "pengar tillbaka"], wrd [strRE "återbetala"],
      wrd [strRE "cancel"], wrd [strRE "avsluta"]]),
    (.complaint,
     [wrd [strRE "dålig"], wrd [strRE "dåligt"], wrd [strRE "hatar"],
      wrd [strRE "ful"], wrd [strRE "terrible"], wrd [strRE "horrible"],
      wrd [strRE "disappointed"]]),
    (.feature_request,
     [wrd [strRE "kan ni"], wrd [strRE "would be nice"], wrd [strRE "wish"],
      wrd [strRE "feature"],
      catRE [.wb, strRE "fungera", gap, altl [strRE "som", strRE "like"], .wb]]),
    (.integration_question,
     [wrd [strRE "integrera"], wrd [strRE "integration"], wrd [strRE "connect"],
      wrd [strRE "work with"], wrd [strRE "koppla"]]),
    (.escalation_demand,
     [wrd [strRE "schef"], wrd [strRE "manager"], wrd [strRE "talk to"],
      wrd [strRE "speak to"], wrd [strRE "boss"], wrd [strRE "human"]]),
    (.legal_threat,
     [wrd [strRE "lagar"], wrd [strRE "lagen"], wrd [strRE "lawyer"],
      wrd [strRE "lagf"],
      catRE [.wb, strRE "kontakt",
             .opt (altl [strRE "ar", strRE "era", .eps]), .wb, gap,
             strRE "konsumentverket", .wb],
      wrd [strRE "arn"]]) ]

/-- `IntelligentRouter._load_sentiment_patterns` plus the inline
negation list of `_detect_sentiment`. -/
def angry_patterns : List RE :=
  [catRE [.wb, strRE "idiot", .opt (strRE "s"), .wb], wrd [strRE "stupid"],
   wrd [strRE "useless"], wrd [strRE "waste"],
   catRE [.wb, strRE "never", gap, strRE "again", .wb],
   catRE [.wb, strRE "ful", altl [strRE "b", strRE "t", strRE "a"], .wb],
   wrd [strRE "horribel"], wrd [strRE "vidrig"], wrd [strRE "skäms"]]

def frustrated_patterns : List RE :=
  [wrd [strRE "impossible"], catRE [.wb, strRE "can", .lit '\x27', strRE "t", .wb],
   wrd [strRE "cannot"], wrd [strRE "why"], wrd [strRE "how many times"],
   wrd [strRE "äntligen"], wrd [strRE "inte fungerar"], wrd [strRE "kaos"]]

def positive_patterns : List RE :=
  [wrd [strRE "great"], wrd [strRE "amazing"], wrd [strRE "awesome"],
   wrd [strRE "tack"], wrd [strRE "tacksam"], wrd [strRE "perfect"],
   wrd [strRE "love"], wrd [strRE "helpful"], wrd [strRE "bra"],
   wrd [strRE "utmärkt"]]

def negative_words : List RE :=
  [wrd [strRE "not"],
   catRE [.wb, strRE "doesn", .opt (.lit '\x27'), strRE "t", .wb],
   catRE [.wb, strRE "won", .opt (.lit '\x27'), strRE "t", .wb],
   wrd [strRE "nej"], wrd [strRE "inte"]]

/-- `IntelligentRouter._load_lead_triggers`, dict insertion order. -/
def lead_triggers : List (Int × List RE) :=
  [ (1, [wrd [strRE "how does it work"],
         catRE [.wb, strRE "vad", gap, strRE "kostar", .wb],
         wrd [strRE "pricing"], wrd [strRE "information"]]),
    (2, [catRE [.wb, strRE "implement", altl [strRE "era", strRE "ation"], .wb],
         wrd [strRE "setup"], wrd [strRE "komma igång"]]),
    (3, [catRE [.wb, strRE "we ", altl [strRE "are", strRE "need"], .wb],
         catRE [.wb, strRE "vi ", altl [strRE "behöver", strRE "söker"], .wb],
         wrd [strRE "looking for"], wrd [strRE "integrate"], wrd [strRE "integration"]]),
    (4, [wrd [strRE "boka"], wrd [strRE "schedule"], wrd [strRE "callback"],
         wrd [strRE "kontakta"], wrd [strRE "demo"], wrd [strRE "offert"]]),
    (5, [wrd [strRE "buy"],
         catRE [.wb, strRE "köp", .opt (strRE "a"), .wb],
         wrd [strRE "ready to"], wrd [strRE "sign up"],
         catRE [.wb, strRE "start", .opt (strRE "a"), .wb, strRE " nu", .wb],
         wrd [strRE "subscribe"]]) ]

/-- The history regexes of `_calculate_lead_score`. -/
def pricing_history_pattern : RE :=
  altl [wrd [strRE "pris"], wrd [strRE "price"], wrd [strRE "pricing"]]

def booking_history_pattern : RE :=
  altl [wrd [strRE "boka"], wrd [strRE "book"]]

def company_indicators : List RE :=
  [wrd [strRE "we are"], wrd [strRE "vi är"], wrd [strRE "our company"],
   wrd [strRE "företag"]]

/-- `IntelligentRouter._detect_intent` on the lowercased message:
per-intent sum of matching-pattern weights (all 1.0), argmax with
first-in-insertion-order tie-breaking, confidence `min(raw/2, 1)`;
`trigger_phrases` holds the matched patterns (their source strings in
Python). -/
def detect_intent (message : List Char) : IntentType × ℚ × List RE :=
  let scored := intent_patterns.filterMap fun (it, ps) =>
    let hits := ps.filter fun p => reSearch true p message
    if hits.length > 0 then some (it, (hits.length : ℚ), hits) else none
  match scored with
  | [] => (.general_inquiry, 3 / 10, [])
  | s :: ss =>
    let best := ss.foldl (fun b x => if x.2.1 > b.2.1 then x else b) s
    (best.1, min (best.2.1 / 2) 1, scored.flatMap fun x => x.2.2)

/-- `IntelligentRouter._detect_sentiment`: angry, frustrated, positive,
then a negation heuristic, checked in that order. -/
def detect_sentiment (message : List Char) : SentimentType :=
  if angry_patterns.any fun p => reSearch true p message then .angry
  else if frustrated_patterns.any fun p => reSearch true p message then .frustrated
  else if positive_patterns.any fun p => reSearch true p message then .positive
  else if negative_words.any fun p => reSearch true p message then .slightly_negative
  else .neutral

/-- Python `l[-n:]`. -/
def lastN (n : Nat) (l : List String) : List String := l.drop (l.length - n)

/-- `IntelligentRouter._calculate_lead_score` on the lowercased message;
the history is the router's own notion of history: a list of prior
message strings (`None` and `[]` are both falsy in the source's
`if history:`). -/
def calculate_lead_score (message : List Char) (history : List String) : Int :=
  let score : Int := lead_triggers.foldl
    (fun sc lv =>
      if lv.2.any fun p => reSearch true p message then max sc lv.1 else sc) 0
  let score :=
    if !history.isEmpty then
      let pricing_mentions := ((lastN 5 history).filter fun m =>
        reSearch false pricing_history_pattern (pyLowerS m)).length
      let score := if pricing_mentions ≥ 2 then max score 3 else score
      if (lastN 3 history).any fun m =>
          reSearch false booking_history_pattern (pyLowerS m) then
        max score 4
      else score
    else score
  let score :=
    if company_indicators.any fun p => reSearch true p message then max score 3
    else score
  min score 5

/-- `_build_metadata` of the router. -/
structure RouterMetadata where
  message_length : Nat
  has_urgent_indicators : Bool
  has_question : Bool
  conversation_turns : Nat
  should_escalate : Bool
  conversion_ready : Bool

/-- `IntelligentRouter._should_escalate` (the advisory flag). -/
def router_should_escalate (intent : IntentType) (sentiment : SentimentType)
    (lead_score : Int) : Bool :=
  (intent = .legal_threat ∨ intent = .escalation_demand) ∨
    sentiment = .angry ∨ (sentiment = .frustrated ∧ lead_score ≤ 2)

def urgent_indicator_pattern : RE :=
  altl [wrd [strRE "urgent"], wrd [strRE "bråttom"], wrd [strRE "asap"]]

def build_metadata (message : String) (history : List String)
    (intent : IntentType) (sentiment : SentimentType) (lead_score : Int) :
    RouterMetadata :=
  { message_length := message.toList.length
    has_urgent_indicators := reSearch true urgent_indicator_pattern message.toList
    has_question := message.toList.contains '?'
    conversation_turns := if !history.isEmpty then history.length else 0
    should_escalate := router_should_escalate intent sentiment lead_score
    conversion_ready := lead_score ≥ 4 ∧ sentiment ≠ .angry }

/-- `IntentResult`. -/
structure IntentResult where
  intent : IntentType
  confidence : ℚ
  sentiment : SentimentType
  lead_score : Int
  trigger_phrases : List RE
  metadata : RouterMetadata

/-- `IntelligentRouter.classify`. -/
def classify (message : String) (conversation_history : List String) : IntentResult :=
  let message_lower := pyLowerS message
  let d := detect_intent message_lower
  let sentiment := detect_sentiment message_lower
  let lead_score := calculate_lead_score message_lower conversation_history
  { intent := d.1
    confidence := d.2.1
    sentiment := sentiment
    lead_score := lead_score
    trigger_phrases := d.2.2
    metadata := build_metadata message conversation_history d.1 sentiment lead_score }

/-! ## `local_model.py` — rule-based fast-path model -/

/-- One entry of `LocalModel.patterns`: the key regex and its response
data. -/
structure LocalPattern where
  pat : RE
  response : String
  intent : String
  lead_score : Int

set_option maxHeartbeats 1600000 in
/-- `LocalModel.patterns` in dict insertion order (searched against the
lowercased message without `re.IGNORECASE`, so the uppercase alternatives
of the source never match — transcribed literally). -/
def local_patterns (company_name : String) : List LocalPattern :=
  [ ⟨wrd [strRE "kontakt", strRE "telefon", strRE "ring", strRE "nummer",
          strRE "phone", strRE "call"],
     "Ring oss på 0793-006638 eller mejla info@vallhamragruppen.se. Vi finns i Johanneberg, Partille och Mölndal.",
     "contact", 1⟩,
    ⟨wrd [strRE "adress", strRE "plats", strRE "var", strRE "var finns ni",
          strRE "hitta"],
     "Vi verkar i Johanneberg, Partille och Mölndal. Kontakt: 0793-006638, info@vallhamragruppen.se",
     "location", 1⟩,
    ⟨wrd [strRE "öppettider", strRE "när är ni öppna", strRE "öppet",
          strRE "öppettid", strRE "hours"],
     "Mån-Fre 08:00-17:00. Akuta ärenden: ring jour på 0793-006638.",
     "hours", 1⟩,
    ⟨wrd [strRE "email", strRE "e-post", strRE "mejla", strRE "mail", strRE "adress"],
     "info@vallhamragruppen.se", "email", 1⟩,
    ⟨wrd [strRE "hej", strRE "tjena", strRE "hallå", strRE "god dag", strRE "hello",
          strRE "hi", strRE "hey", strRE "godmorgon", strRE "godkväll",
          strRE "morsan", strRE "påsnor"],
     "Hej! Vallhamragruppen här. Vad kan jag hjälpa med?", "greeting", 1⟩,
    ⟨wrd [strRE "tack", strRE "tackar", strRE "tacksam", strRE "thanks",
          strRE "thank", strRE "tack så mycket", strRE "snälla"],
     "Varsågod! Fler frågor - bara fråga.", "gratitude", 1⟩,
    ⟨wrd [strRE "hejdå", strRE "adjö", strRE "vi ses", strRE "bye", strRE "goodbye",
          strRE "ha det så", strRE "seeya"],
     "Ha en bra dag!", "goodbye", 1⟩,
    ⟨wrd [strRE "felanmälan", strRE "felanmäl", strRE "anmäl fel", strRE "reparation",
          strRE "problem", strRE "fungerar inte", strRE "broken", strRE "issue"],
     "Felanmälan: ring 0793-006638 eller använd formulär på hemsidan. Akuta ärenden prioriteras.",
     "technical_issue", 2⟩,
    ⟨wrd [strRE "översvämning",
          catRE [strRE "vattenläcka", gap,
                 altl [strRE "akut", strRE "stort", strRE "forsar"]],
          catRE [strRE "brustet", gap, strRE "rör"],
          catRE [strRE "står", gap, strRE "vatten"],
          catRE [strRE "forsar", gap, strRE "vatten"],
          strRE "emergency", strRE "flood"],
     "Vattenläcka - stäng av vattnet under diskhon. Ring jour 0793-006638 direkt. Var läcker det?",
     "water_critical", 2⟩,
    ⟨wrd [strRE "droppar", strRE "läcker", strRE "kran", strRE "diskmaskin",
          strRE "tvättmaskin", strRE "avlopp", strRE "tolett", strRE "wc",
          strRE "vatten"],
     "Vattenproblem. Läcka eller droppande kran? Var i lägenheten? Är det farligt för el eller golv? Ring 0793-006638.",
     "water_question", 2⟩,
    ⟨wrd [strRE "avlopp", strRE "stopp", strRE "propp", strRE "backar",
          catRE [strRE "tömmer", gap, strRE "inte"],
          catRE [strRE "luktar", gap, strRE "ill"],
          strRE "avlopps", strRE "avloppsproblem"],
     "Avloppsproblem. Har du provat rensa själv? Gäller det kök eller badrum? Ring 0793-006638.",
     "drainage", 2⟩,
    ⟨altl [catRE [strRE "avloppet", gap, strRE "stopp"],
           catRE [strRE "stopp", gap, strRE "avlopp"],
           catRE [strRE "propp", gap, strRE "avlopp"],
           catRE [strRE "avlopp", gap, strRE "propp"],
           catRE [strRE "avloppet", gap, strRE "backar"]],
     "Avloppsproblem. Har du provat rensa själv? Gäller det kök eller badrum? Ring 0793-006638.",
     "drainage", 2⟩,
    ⟨altl [catRE [strRE "inget", gap, strRE "vatten"],
           catRE [strRE "vatten", gap, strRE "slutar"],
           catRE [strRE "kranen", gap, strRE "ger"],
           catRE [strRE "inget", gap, strRE "kommer"]],
     "Inget vatten. Gäller det hela fastigheten eller bara din lägenhet? Kolla med grannen. Ring 0793-006638 om det inte återkommer.",
     "no_water", 2⟩,
    ⟨wrd [strRE "värmepanna", strRE "vattenberedare", strRE "beredare",
          strRE "varmvatten", strRE "varmvattentank"],
     "Problem med varmvatten? Kolla om den eldrivna beredaren har ström. Gasol? Behöver påfyllning. Ring 0793-006638.",
     "water_heater", 2⟩,
    ⟨wrd [strRE "badrumsrenovering", strRE "katsbyggnation", strRE "rot",
          catRE [strRE "renovera", gap, strRE "badrum"]],
     "Renovering av våtrum kräver bygglov och certifierad firma. Är detta planerat eller akut? Ring 0793-006638 för råd.",
     "renovation", 3⟩,
    ⟨wrd [catRE [strRE "tappat", gap, strRE "nyckel"],
          catRE [strRE "nyckel", gap, strRE "borta"],
          catRE [strRE "glömde", gap, strRE "nyckel"],
          strRE "utelåst", catRE [strRE "låst", gap, strRE "ute"],
          catRE [strRE "kommer", gap, strRE "inte", gap, strRE "in"],
          catRE [strRE "kan", gap, strRE "ej", gap, strRE "komma"],
          catRE [strRE "låset", gap, strRE "går", gap, strRE "inte"]],
     "Utelåst? Ring jour 0793-006638 nu. Vilken adress?", "lockout_critical", 2⟩,
    ⟨wrd [strRE "nyckel", strRE "lås", strRE "dörr", strRE "låset",
          strRE "nyckelkort", strRE "tagg", strRE "passage"],
     "Nyckel- eller låsproblem. Tappad nyckel eller trasigt lås? Ring 0793-006638.",
     "lock_question", 2⟩,
    ⟨wrd [strRE "inbrott", strRE "skadegörelse", strRE "krossat",
          catRE [strRE "försöker", gap, strRE "ta", gap, strRE "sig"],
          strRE "klotter", strRE "grafitti", strRE "vandalism"],
     "Inbrott eller skadegörelse? Ring polisen på 114 14 först. Anmäl sedan till oss på 0793-006638 för dokumentation.",
     "security_incident", 3⟩,
    ⟨wrd [strRE "larm", strRE " BRANDLARM", strRE "brandvarnare", strRE "larmar",
          strRE " tjut", strRE "pieper"],
     "Larmar brandvarnarna utan brand? Ventilera eller flytta den. Ej brand? Ring 0793-006638 för teknisk hjälp.",
     "alarm", 2⟩,
    ⟨wrd [strRE "ingen värme", strRE "kallt", strRE "fryser", strRE "elementen",
          strRE "element fungerar", strRE "dricks inte", strRE "inget varmt",
          strRE "det är kallt", strRE "kyla", strRE "elementen ej", strRE "värme ej"],
     "Ingen värme. Kollat termostaten på elementen? Gäller ett element eller hela lägenheten? Ring 0793-006638.",
     "heating_issue", 2⟩,
    ⟨wrd [strRE "ventilation", strRE "fläkt", strRE "spiskåpa", strRE "badrumsfläkt",
          strRE "fläktar", strRE "luktar", strRE "fukt", strRE "mögel", strRE "fuktig"],
     "Ventilationsproblem. Kolla att ventilationsdonen är öppna. Rengjorda nyligen? Ring 0793-006638.",
     "ventilation", 2⟩,
    ⟨wrd [strRE "golvvärme", strRE "golvvärme", strRE "termostat", strRE "golv"],
     "Golvvärmeproblem? Kolla termostaten - felkod? Ring 0793-006638 med felkod om möjligt.",
     "floor_heating", 2⟩,
    ⟨wrd [strRE "fjärrvärme", strRE "värmeväxlare", strRE " radiator",
          strRE "elementljud", strRE "klick", strRE "slår", strRE "bänkar"],
     "Fjärrvärme/elementproblem. Klickande eller kalla element? Lufta om det behövs. Ring 0793-006638.",
     "heating_system", 2⟩,
    ⟨wrd [strRE "ingen ström", strRE "strömavbrott", strRE "slut",
          strRE "inte fungerar", strRE "mörkt", strRE "ljuset fungerar ej",
          strRE "elektricitet", strRE "el av", strRE "avbrott"],
     "Strömproblem. Kolla säkringsskärmet i trapphus först. Gäller hela lägenheten? Ring 0793-006638.",
     "electric_issue", 2⟩,
    ⟨wrd [strRE "säkring", strRE "säkringar", strRE "propp", strRE "skurmat",
          strRE "elektriker", strRE "elavbrott", strRE "glimmar", strRE "blinkar"],
     "Elproblem. Kolla säkringsskärmet i trapphus. Har skurmat? Gäller en krets eller allt? Ring 0793-006638.",
     "electrical", 2⟩,
    ⟨wrd [strRE "ljuskälla", strRE "lampa", strRE "belysning", strRE "taklampa",
          strRE "spot", strRE "led", strRE "glödlampa"],
     "Belysningproblem. Glödlampa byter du själv. Armaturfel? Ring 0793-006638.",
     "lighting", 1⟩,
    ⟨wrd [strRE "diskmaskin", strRE "tvättmaskin", strRE "torktumlare", strRE "kyl",
          strRE "frys", strRE "spis", strRE "ugn", strRE "häll", strRE "vitvaror"],
     "Vitvaror. Köpt av dig eller ingår i fastigheten? Ring 0793-006638.",
     "appliance", 2⟩,
    ⟨wrd [strRE "gått sönder", strRE "trasig sönder", strRE "tras", strRE "sönder",
          strRE "tillbörd sönder", strRE "har gått sönder", strRE "fungerar ej",
          strRE "dött"],
     "Gått sönder. Vad har hänt? Är det farligt? Ring 0793-006638.",
     "damaged_item", 2⟩,
    ⟨wrd [strRE "garanti", strRE "reklamation", strRE "byta", strRE "byter",
          strRE "ersätt"],
     "Garantifråga. Vad gäller? Köpt av dig eller ingår i avtal? Ring 0793-006638.",
     "warranty", 2⟩,
    ⟨wrd [strRE "fönster", strRE "fönsterbräda", strRE "karm", strRE "brott",
          strRE "spricka", strRE "läcker", strRE "insläpp", strRE "dra",
          strRE "dragit"],
     "Fönsterproblem. Krossat eller spricka? Kallt? Ring 0793-006638.",
     "window", 2⟩,
    ⟨wrd [strRE "dörr", strRE "pärm", strRE "balkongdörr", strRE "entré",
          strRE "ytterdörr", strRE "innerdörr", strRE "klo", strRE "gångjärn",
          strRE "slå", strRE "klnnar"],
     "Dörrproblem. Vilken dörr? Sitter fast eller går ej igen? Ring 0793-006638.",
     "door", 2⟩,
    ⟨wrd [strRE "balkong", strRE "terrass", strRE "uteplats", strRE "räcke",
          strRE "golv", strRE "rötta", strRE "lasering"],
     "Balkong/uteplats. Vad är problemet? Säkert? Ring 0793-006638.",
     "balcony", 2⟩,
    ⟨wrd [strRE "tak", strRE "takläck", catRE [strRE "läcker", gap, strRE "igenom"],
          catRE [strRE "vatten", gap, strRE "tak"], strRE "innanför",
          strRE "regnvatten"],
     "Takläcka. Akut! Placera hink under. Ring jour 0793-006638 direkt.",
     "roof_leak", 3⟩,
    ⟨wrd [strRE "golv", strRE "parkett", strRE "klinker", strRE "kakel",
          strRE "golvbräda", strRE "knarr", strRE "squeak", strRE "spricka"],
     "Golvproblem. Knarr, spricka eller fukt? Ring 0793-006638.", "floor", 2⟩,
    ⟨wrd [strRE "vägg", strRE "tapet", strRE "målning", strRE "färg",
          strRE "spricka", strRE "bubbla", strRE "flagor"],
     "Väggproblem. Sprickor eller fukt? Ring 0793-006638.", "wall", 2⟩,
    ⟨wrd [strRE "källare", strRE "krypgrund", strRE "fukt", strRE "mögel",
          strRE "lukt", strRE "illaluktande"],
     "Fukt/mögel? Allvarligt. Ring 0793-006638 direkt för besiktning.",
     "moisture", 3⟩,
    ⟨wrd [strRE "skadedjur", strRE "råtta", strRE "rattor", strRE "mus",
          strRE " möss", strRE "kackerlack", strRE "kackerlackor", strRE "myra",
          strRE "myror", strRE "geting", strRE "getingar", strRE "vessel",
          strRE "vägglus", strRE "löss", strRE "bedbugs"],
     "Skadedjur? Ring 0793-006638. Vi ordnar sanering genom anticimex.",
     "pest", 2⟩,
    ⟨wrd [strRE "katt", strRE "hund", strRE "sällskapsdjur", strRE "djurhållning",
          strRE "husdjur"],
     "Djurfråga. Vad gäller? Regler eller problem? Ring 0793-006638.", "pets", 2⟩,
    ⟨wrd [strRE "soptunna", strRE "avfall", strRE "återvinning", strRE "träpunkten",
          strRE "grovsopor", strRE "kast", strRE "släng", strRE "tömning"],
     "Sopor/återvinning. Källa.se eller din kommun för tider. Behållproblem? Ring 0793-006638.",
     "waste", 1⟩,
    ⟨wrd [strRE "städning", strRE "städ", strRE "trappstädning",
          catRE [strRE "gemensam", gap, strRE "lokal"], strRE "lokaluthyrning"],
     "Städfråga. Trappstädning ingår oftast. Ring 0793-006638.", "cleaning", 1⟩,
    ⟨wrd [strRE "parkering", strRE "parker", strRE "garage", strRE "carport",
          strRE "bil", strRE "parkeringsplats", strRE "p-plats", strRE "laddstolpe",
          strRE "elbil"],
     "Parkering/garage. Vad gäller? Plats, laddstolpe eller port? Ring 0793-006638.",
     "parking", 2⟩,
    ⟨wrd [strRE "felställt", strRE "brott", catRE [strRE "inbrott", gap, strRE "bil"],
          strRE "skadegörelse", strRE "vindruta", strRE "däck"],
     "Skadegörelse på fordon? Ring polisen 114 14. Anmäl till oss på 0793-006638.",
     "vehicle_damage", 2⟩,
    ⟨wrd [strRE "trädgård", strRE "gräsmatta", strRE "gräsklippning", strRE "snö",
          strRE "snöröjning", strRE "halka", strRE "halkbekämpning", strRE "sandning"],
     "Uteområde. Snöröjning/trädgård ingår ofta. Vad gäller? Ring 0793-006638.",
     "outdoor", 2⟩,
    ⟨wrd [strRE "grönområde", strRE " häck", strRE "buske", strRE "träd",
          strRE "beskärning", strRE "fallande", strRE "grenar"],
     "Grönyta. Beskärning eller farliga träd? Ring 0793-006638.", "garden", 2⟩,
    ⟨altl [catRE [strRE "vem", gap, strRE "snöröjning"],
           catRE [strRE "vem", gap, strRE "ansvarar", gap, strRE "snö"],
           catRE [strRE "vem", gap, strRE "halka"],
           strRE "halkbekämpning", strRE "sandning"],
     "Snöröjning och halkbekämpning ansvarar fastighetsägaren för på gemensamma ytor och entréer. Ring 0793-006638.",
     "snow_responsibility", 2⟩,
    ⟨altl [catRE [strRE "vem", gap, strRE "ansvarar"],
           catRE [strRE "vems", gap, strRE "ansvar"],
           catRE [strRE "vem", gap, strRE "betalar"],
           catRE [strRE "vem", gap, strRE "gör"],
           catRE [strRE "vem", gap, strRE "sköter"]],
     "Ansvarsfråga. Vad gäller specifikt? Ring 0793-006638 för besked.",
     "responsibility", 2⟩,
    ⟨altl [catRE [strRE "vad", gap, strRE "ingår"],
           catRE [strRE "ingår", gap, strRE "i"],
           catRE [strRE "ingår", gap, strRE "förvaltning"],
           catRE [strRE "vad", gap, strRE "ingår", gap, strRE "i", gap,
                  strRE "förvaltning"]],
     "Förvaltning ingår: drift och underhåll, ekonomisk förvaltning, hyresadministration. Ring 0793-006638.",
     "services", 2⟩,
    ⟨altl [strRE "vembyter", catRE [strRE "vem", gap, strRE "byter"],
           catRE [strRE "vem", gap, strRE "skall", gap, strRE "byter"],
           catRE [strRE "vem", gap, strRE "ska", gap, strRE "byter"],
           catRE [strRE "byter", gap, strRE "glödlampa"], strRE "glödlampa"],
     "Hyresgäst/ägare byter självvanliga glödlampor. Armaturfel är fastighetsägarens ansvar. Ring 0793-006638.",
     "lighting_responsibility", 2⟩,
    ⟨altl [catRE [strRE "hur", gap, strRE "luftrar"],
           catRE [strRE "luftra", gap, strRE "element"],
           catRE [strRE "lufta", gap, strRE "radiator"],
           catRE [strRE "element", gap, strRE "lufta"]],
     "Lufta element: Vänta tills det är varmt. Använd nyckel på sidan av elementet - vrid tills vatten kommer. Stäng till.",
     "radiator_airing", 2⟩,
    ⟨altl [catRE [strRE "andra", gap, strRE "hand"], strRE "andrahand",
           strRE "andrahands", catRE [strRE "hyra", gap, strRE "ut"],
           catRE [strRE "andra", gap, strRE "hand", gap, strRE "hyra"]],
     "Andrahandsuthyrning kräver godkännande. Kontakta oss på 0793-006638 för ansökan.",
     "sublet", 3⟩,
    ⟨wrd [strRE "hyresgäst", strRE "hyresgästen", strRE "tvätta", strRE "tvättstuga",
          strRE "tvättid", catRE [strRE "boka", gap, strRE "tvätt"]],
     "Hyresgästfråga. Tvättstuga? Kontakta firstname.lastname@example.com eller ring 0793-006638.",
     "tenant", 2⟩,
    ⟨wrd [strRE "hyra", strRE "hyresavi", strRE "hyreshöjning", strRE "förhandla",
          strRE "hyresnämnd"],
     "Hyresfråga. Vad gäller? Hyresnivå eller betalning? Ring 0793-006638.",
     "rent", 3⟩,
    ⟨wrd [strRE "andrahand", strRE "andra hand", strRE "andrahandsuthyrning",
          strRE "hyra ut", strRE "bostad"],
     "Andrahand? Kontakta oss på 0793-006638 för ansökan om andrahandsuthyrning.",
     "sublet", 3⟩,
    ⟨wrd [strRE "flytt", strRE "utflytt", strRE "inflytt", strRE "flyttstädn",
          strRE "nyckelavl"],
     "Flytt? Kontakta oss på 0793-006638 för flyttanmälan och nyckelöverlämning.",
     "moving", 3⟩,
    ⟨wrd [strRE "husordning", strRE "regler", strRE "stadgar", strRE "ordningsregler",
          strRE "föreskrifter"],
     "Regler? Vad gäller specifikt? Ring 0793-006638 så hjälper vi dig.",
     "rules", 1⟩,
    ⟨wrd [strRE "störning", strRE "stör", strRE "oljud", strRE "höga ljud",
          strRE "fest", strRE "musik", strRE "granne", strRE "grannar"],
     "Störning? Akut nattstörning: ring jour på 0793-006638. Dagtid: ring 0793-006638.",
     "disturbance", 2⟩,
    ⟨wrd [strRE "rökning", strRE "rök", strRE "rökfri", strRE "rygga",
          strRE "e-cigaret", strRE "vaping"],
     "Rökfråga. Regler varierar. Ring 0793-006638.", "smoking", 1⟩,
    ⟨wrd [strRE "fastighetsförvaltning", strRE "förvaltning", strRE "förvaltare",
          strRE "fastighetsskötare", strRE "vaktmästare"],
     "Förvaltning: drift och underhåll, ekonomisk förvaltning, hyresadministration. Ring 0793-006638.",
     "management", 2⟩,
    ⟨wrd [strRE "drift", strRE "underhåll", strRE "skötsel", strRE "fastighetsdrift",
          strRE "driftkostnad"],
     "Drift & underhåll ingår i vår förvaltning. Specifik fråga? Ring 0793-006638.",
     "maintenance", 2⟩,
    ⟨wrd [strRE "ekonomi", strRE "bokslut", strRE "budget", strRE "årsredovisning",
          strRE "faktura", strRE "betalning", strRE "invoice"],
     "Ekonomifråga. Faktura eller betalning? Ring 0793-006638.", "finance", 3⟩,
    ⟨wrd [strRE "underhållsplan", strRE "besiktning", strRE "reparation",
          strRE "renovering", strRE " ROT", strRE "avhjälpande"],
     "Underhållsplan/Besiktning. Vad gäller? Ring 0793-006638.",
     "maintenance_plan", 3⟩,
    ⟨wrd [strRE "försäkring", strRE "försäkringsbolag", strRE "skada",
          strRE "anmäl skada", strRE "stöld", strRE "brand"],
     "Försäkring. Skadan på fastigheten eller din egendom? Ring 0793-006638.",
     "insurance", 3⟩,
    ⟨wrd [strRE "energi", strRE "energideklaration", strRE "energiklass",
          strRE "värmeisolering", strRE "energispar"],
     "Energifråga. Deklaration eller sparåtgärder? Ring 0793-006638.", "energy", 2⟩,
    ⟨wrd [strRE "brf", strRE "bostadsrätt", strRE "bostadsrättsförening",
          strRE "förening", strRE "styrelse", strRE "stämman", strRE "årsmöte"],
     "Bostadsrättsförening. Styrelsefråga - kontakta styrelsen. Förvaltningsfråga? Ring 0793-006638.",
     "brf", 3⟩,
    ⟨wrd [strRE "kommersiell", strRE "lokal", strRE "kontor", strRE "butik",
          strRE "lager", strRE "industri", strRE "företagslokal"],
     "Kommersiell lokal. Vad gäller? Hyra eller skötsel? Ring 0793-006638.",
     "commercial", 3⟩,
    ⟨wrd [strRE "vem är ni", strRE "vilka är ni", strRE "om företaget",
          strRE "bolaget", strRE "company", strRE " Vad gör ni"],
     company_name ++ " förvaltar fastigheter - drift, underhåll, ekonomi och hyresadministration för bostadsrättsföreningar och kommersiella fastigheter.",
     "about", 1⟩,
    ⟨wrd [strRE "tjänster", strRE "gör ni", strRE "erbjuder", strRE "service",
          strRE "services", strRE "Help"],
     "Fastighetsförvaltning: drift och underhåll, ekonomisk förvaltning, hyresadministration, projektledning.",
     "services", 2⟩,
    ⟨wrd [strRE "boka", strRE "bokning", strRE "möte", strRE "visning", strRE "träff",
          strRE "meeting", strRE "book", strRE "appointment"],
     "Boka möte: ring 0793-006638 eller info@vallhamragruppen.se. När passar?",
     "booking_request", 5⟩,
    ⟨wrd [strRE "pris", strRE "kostar", strRE "kostnad", strRE "betala",
          strRE "price", strRE "pricing", strRE "how much", strRE "taxa",
          strRE "debitering"],
     "Pris sätts individuellt efter fastighet och tjänsteomfattning. Offert? Ring 0793-006638.",
     "pricing_question", 3⟩,
    ⟨wrd [strRE "offert", strRE "offer", strRE "quote", strRE "prislista",
          strRE "price list", strRE "anbud"],
     "Kostnadsfri offert. Berätta om fastigheten så hjälper vi dig. Ring 0793-006638.",
     "pricing_question", 4⟩,
    ⟨wrd [strRE "ledig", strRE "lediga", strRE "ledigt", strRE "tom", strRE "tomma",
          strRE "lägenhet", strRE "lägenheter", strRE "bostad", strRE "bostäder",
          strRE "fastighet", strRE "hyresrätt", strRE "brf", strRE "lokaler",
          strRE "lokal"],
     "Lediga lägenheter/lokaler? Kontakta oss på 0793-006638 eller info@vallhamragruppen.se så berättar vi vad du söker.",
     "availability", 4⟩,
    ⟨wrd [strRE "arg", strRE "förbannad", strRE "dålig", strRE "terrible",
          strRE "horrible", strRE "hate", strRE "ilsk", strRE "rasande",
          strRE "förbann"],
     "Jag förstår. Ring 0793-006638 så hjälper en kollega dig direkt.",
     "complaint", 1⟩,
    ⟨wrd [strRE "chef", strRE "manager", strRE "ledning", strRE "överordnad",
          strRE "mänsklig", strRE "human", strRE "person", strRE "prata med",
          strRE "tala med", strRE "komma fram", strRE "högre upp"],
     "Självklart. Ring 0793-006638 så hjälper vi dig.", "escalation_demand", 1⟩,
    ⟨wrd [strRE "klagomål", strRE "klaga", strRE "missnöjd", strRE "inte nöjd",
          strRE "dåligt", strRE "fungerar ej", strRE "skämt", strRE "skräpa"],
     "Jag beklagar. Ring 0793-006638 så hjälper vi dig direkt.", "complaint", 2⟩,
    ⟨wrd [strRE "när", strRE "hur länge", strRE "tid", strRE "vecka", strRE "dag",
          strRE "idag", strRE "imorgon", strRE "snarast", strRE "skynda"],
     "Tidsfråga. Vad gäller? Akut ärenden hanteras direkt. Övriga: ring 0793-006638.",
     "timing", 1⟩,
    ⟨wrd [strRE "vänta", strRE "kö", strRE "ledtid", strRE "handläggningstid"],
     "Väntetid? Vad är ärendet? Akut prioriteras. Ring 0793-006638 för status.",
     "wait_time", 1⟩,
    ⟨wrd [strRE "vinter", strRE " snö", strRE "is", strRE " halka", strRE "kyla",
          strRE "element", strRE " frost", strRE "värme"],
     "Vinterfrågor? Snöröjning/halkbekämpning ingår ofta. Värmeproblem? Ring 0793-006638.",
     "seasonal", 2⟩,
    ⟨wrd [strRE "sommar", strRE "värme", strRE "svala", strRE "通风", strRE "fläkt",
          strRE "gräsklipp"],
     "Sommarfrågor? Ventilation eller grönyta? Ring 0793-006638.", "seasonal", 2⟩,
    ⟨wrd [strRE "felanmälanssystem", strRE "app", strRE "portal", strRE "inlogg",
          strRE "lös", strRE "ord", strRE "mitt", strRE "konto", strRE "min sida"],
     "Systemfråga. Felanmälan via hemsida eller ring 0793-006638. Inloggningsproblem? Ring 0793-006638.",
     "system", 1⟩,
    ⟨wrd [strRE "lorem", strRE "ipsum", strRE "test", strRE "demo", strRE "exempel"],
     "Testmeddelande mottaget. Kontakta oss på 0793-006638 för riktiga ärenden.",
     "test", 1⟩ ]

/-- `LocalModel.can_handle`: some pattern matches the lowercased message. -/
def can_handle (company_name : String) (message : String) : Bool :=
  let m := pyLowerS message
  (local_patterns company_name).any fun e => reSearch false e.pat m

/-- What `LocalModel.generate` returns. -/
structure LocalResult where
  response : String
  intent : String
  confidence : ℚ
  lead_score : Int
  escalate : Bool
deriving DecidableEq

/-- The `fallback_check` dict of `LocalModel.generate` (searched with
`re.IGNORECASE`). -/
def local_fallbacks : List (RE × String) :=
  [ (altl [strRE "vem", strRE "vad", strRE "vilken", strRE "vilket", strRE "vilka",
           strRE "hur", strRE "var", strRE "när", strRE "varför"],
     "Jag hjälper med frågor om fastigheter, felanmälan, förvaltning, bokning med mera. Ring 0793-006638 eller beskriv ditt ärende."),
    (altl [strRE "problem", strRE "fel", strRE "felanmälan", strRE "hjälp",
           strRE "störd", strRE "skad"],
     "Beskriv problemet så hjälper jag dig. Felanmälan når du på 0793-006638."),
    (altl [strRE "snöröjning", strRE "halka", strRE "is", strRE "snö", strRE "vinter"],
     "Snöröjning och halkbekämpning ingår för gemensamma ytor. Egna uppgifter sköter du själv. Ring 0793-006638."),
    (altl [strRE "lås", strRE "nyckel", strRE "dörr", strRE "öppna", strRE "lås",
           strRE "byte", strRE "byt"],
     "Lås- eller nyckelproblem? Ring 0793-006638.") ]

/-- `LocalModel.generate`: first matching pattern's data (confidence
0.85), else the first matching fallback (confidence 0.5), else the final
fallback (confidence 0.3). -/
def local_generate (company_name : String) (message : String) : LocalResult :=
  let m := pyLowerS message
  match (local_patterns company_name).find? fun e => reSearch false e.pat m with
  | some e =>
    { response := e.response
      intent := e.intent
      confidence := 17 / 20
      lead_score := e.lead_score
      escalate := e.intent = "complaint" || e.intent = "escalation_demand" }
  | none =>
    match local_fallbacks.find? fun f => reSearch true f.1 m with
    | some f =>
      { response := f.2, intent := "general", confidence := 1 / 2,
        lead_score := 1, escalate := false }
    | none =>
      { response := "Berätta vad du behöver hjälp med så ska jag göra mitt bästa. Du kan också ringa 0793-006638."
        intent := "unknown", confidence := 3 / 10, lead_score := 1,
        escalate := false }

/-! ## `proactive.py` — suggested quick replies -/

/-- `MicroConversionEngine.get_suggested_actions`. -/
def get_suggested_actions (lead_score : Int) (intent : String) : List String :=
  if intent = "pricing_question" then ["Se priser", "Boka möte", "Jämför paket"]
  else if intent = "how_it_works" then
    ["Hur fungerar det?", "Se demo", "Implementation"]
  else if lead_score ≥ 4 then ["Boka möte", "Se priser", "Kontakta mig"]
  else if lead_score ≥ 2 then ["Mer information", "Kostnad", "Funktioner"]
  else ["Hur fungerar det?", "Priser", "Kontakta support"]

/-! ## `schemas.py` — structured bot response -/

/-- The `BotResponse` dataclass (fields surfaced by the pipeline). -/
structure BotResponse where
  reply : String
  action : String
  intent : String
  confidence : ℚ
  sentiment : String
  lead_score : Int
  escalate : Bool
  requires_followup : Bool
  conversion_ready : Bool
  urgency : String
  suggested_responses : Option (List String) := none
  escalation_summary : Option String := none

/-- `schemas.create_response`: derives urgency/followup/conversion flags
from the classification. -/
def create_response (reply intent : String) (confidence : ℚ) (sentiment : String)
    (lead_score : Int) (escalate : Bool := false) (action : String := "none")
    (suggested_responses : Option (List String) := none)
    (escalation_summary : Option String := none) : BotResponse :=
  let urgency :=
    if escalate || sentiment = "angry" then "critical"
    else if sentiment = "frustrated" then "high"
    else if lead_score ≥ 4 then "medium"
    else "low"
  { reply := reply
    action := action
    intent := intent
    confidence := confidence
    sentiment := sentiment
    lead_score := lead_score
    escalate := escalate
    requires_followup := lead_score ≥ 3
    conversion_ready := lead_score ≥ 4 ∧ sentiment ≠ "angry" ∧ sentiment ≠ "frustrated"
    urgency := urgency
    suggested_responses := suggested_responses
    escalation_summary := escalation_summary }

/-! ## `bot.py` — `SupportStarterBot.process_message`

External collaborators are explicit parameters of `BotCtx`: the
Anthropic/RAG reply generation (`llm_reply`), the config-derived phone
number, company name and fault response templates, the datetime-derived
ids/timestamps, `time.time()` for the rate limiter, and
`memory.extract_info_from_message` (`mem_extract`, a pure helper of
`memory.py` whose output feeds only the session attribute map).  The
metrics/persistence/webhook calls of the source do not touch any state
read by the pipeline and have no counterpart here. -/

structure BotCtx where
  company_name : String := "Vallhamragruppen AB"
  phone : String := "0793-006638"
  fault_responses : FaultResponses
  llm_reply : String → String
  mem_extract : String → List (String × String) := fun _ => []
  new_report_id : String := "fault_0"
  ts : String := ""
  now : ℚ := 0
  triggers : EscalationTriggers := {}

/-- The bot's mutable collaborator state: the security rate limiter, the
fault system's `pending_reports`, and `ConversationMemory.sessions`,
where each session also carries its extracted attribute map
(`session.memory` key ↦ stored value). -/
structure SessionEntry where
  sess : ConversationSession
  attrs : List (String × String) := []

structure BotState where
  rate_limiter : RateLimiter := {}
  pending_reports : List (String × FaultReport) := []
  sessions : List (String × SessionEntry) := []

def lookupS (m : List (String × SessionEntry)) (k : String) : Option SessionEntry :=
  (m.find? fun e => e.1 = k).map Prod.snd

def insertS (m : List (String × SessionEntry)) (k : String) (v : SessionEntry) :
    List (String × SessionEntry) :=
  if (m.find? fun e => e.1 = k).isSome then
    m.map fun e => if e.1 = k then (k, v) else e
  else m ++ [(k, v)]

/-- `ConversationMemory.get_or_create_session`. -/
def get_or_create_session (ctx : BotCtx) (st : BotState) (session_id : String) :
    SessionEntry × BotState :=
  match lookupS st.sessions session_id with
  | some e => (e, st)
  | none =>
    let e : SessionEntry :=
      { sess := { session_id := session_id, started_at := ctx.ts,
                  last_activity := ctx.ts } }
    (e, { st with sessions := insertS st.sessions session_id e })

def lookupAttr (attrs : List (String × String)) (k : String) : Option String :=
  (attrs.find? fun e => e.1 = k).map Prod.snd

def setAttr (attrs : List (String × String)) (k v : String) :
    List (String × String) :=
  if (attrs.find? fun e => e.1 = k).isSome then
    attrs.map fun e => if e.1 = k then (k, v) else e
  else attrs ++ [(k, v)]

/-- `ConversationMemory.extract_and_store_info` for the info types that
`memory.extract_info_from_message` can produce. -/
def store_info (attrs : List (String × String)) (info_type value : String) :
    List (String × String) :=
  if info_type = "name" then setAttr attrs "customer_name" value
  else if info_type = "email" then setAttr attrs "customer_email" value
  else if info_type = "phone" then setAttr attrs "customer_phone" value
  else if info_type = "company" then setAttr attrs "customer_company" value
  else attrs

/-- `SupportStarterBot.process_message`: the pipeline entry point. -/
def process_message (ctx : BotCtx) (st : BotState) (message session_id : String)
    (conversation_history : List String) : BotResponse × BotState :=
  -- 1. security check
  match process_input st.rate_limiter message session_id ctx.now with
  | (false, _, _, rl1) =>
    (create_response
      "Meddelandet kunde inte bearbetas. Vänligen kontakta oss via telefon om problemet kvarstår."
      "security_block" 1 "neutral" 1 false "none",
     { st with rate_limiter := rl1 })
  | (true, sanitized, _, rl1) =>
    let message := sanitized
    let st := { st with rate_limiter := rl1 }
    -- 2. get or create session
    let g := get_or_create_session ctx st session_id
    let entry := g.1
    let st := g.2
    -- 3. fault reports first
    let session_data : SessionData :=
      { session_id := session_id
        customer_name := lookupAttr entry.attrs "customer_name"
        customer_email := lookupAttr entry.attrs "customer_email"
        customer_phone := lookupAttr entry.attrs "customer_phone" }
    let cres :=
      collect_fault_report ctx.fault_responses ctx.new_report_id
        st.pending_reports message session_data
    let fault_result := cres.1
    let st := { st with pending_reports := cres.2 }
    if fault_result.report.urgency ≠ .low then
      let is_urgent := fault_result.report.urgency = .critical ∨
        fault_result.report.urgency = .high
      let follow_up :=
        if fault_result.collect_more_info then follow_up_for fault_result.report
        else ""
      (create_response (fault_result.response ++ follow_up) "fault_report" (19 / 20)
        (if fault_result.report.urgency ≠ .critical then "neutral" else "frustrated")
        2 is_urgent "collect_info", st)
    else
    -- 4. local model fast path
    if can_handle ctx.company_name message then
      let local_result := local_generate ctx.company_name message
      (create_response local_result.response local_result.intent
        local_result.confidence "neutral" local_result.lead_score
        local_result.escalate
        (if local_result.escalate then "escalate" else "none"), st)
    else
    -- 5. classify intent
    let router_result := classify message conversation_history
    -- 7. extract and store info
    let attrs := (ctx.mem_extract message).foldl
      (fun a tv => store_info a tv.1 tv.2) entry.attrs
    let entry := { entry with attrs := attrs }
    let st := { st with sessions := insertS st.sessions session_id entry }
    -- 8. escalation
    match should_escalate ctx.triggers router_result.intent.val
      router_result.sentiment.val router_result.lead_score
      (entry.sess.messages.length : Int) message with
    | (true, some reason) =>
      let summary := escalation_summary reason router_result.sentiment.val
        (entry.sess.messages.length : Int)
      let escalation_response := get_escalation_response reason (some ctx.phone)
      (create_response escalation_response router_result.intent.val
        router_result.confidence router_result.sentiment.val
        router_result.lead_score true "escalate" none (some summary), st)
    | _ =>
    -- 9-10. generate via RAG + LLM (external collaborator)
    let reply := ctx.llm_reply message
    -- 12. record messages in memory
    let sess := memory_add_message entry.sess "user" message ctx.ts
      (some router_result.intent.val) (some router_result.sentiment.val)
      (some router_result.lead_score)
    let sess := memory_add_message sess "bot" reply ctx.ts
    let st := { st with
      sessions := insertS st.sessions session_id { entry with sess := sess } }
    -- 13-14. suggested actions and final response
    let suggested := get_suggested_actions router_result.lead_score
      router_result.intent.val
    (create_response reply router_result.intent.val router_result.confidence
      router_result.sentiment.val router_result.lead_score false
      (if router_result.lead_score ≥ 4 then "book_call" else "none")
      (some (suggested.take 3)), st)

/-! ## Sample instantiations of the external collaborators, used to run
the pipeline on concrete inputs.  The fault response templates come from
the (external) config file, so short placeholder strings stand for
them; the generation call is replaced by a constant reply. -/

def sampleResponses : FaultResponses :=
  { fault_water_critical := "WC!"
    fault_lockout := "LO!"
    fault_general_critical := "GC!"
    fault_water_high := "WH!"
    fault_heating_high := "HH!"
    fault_electric_high := "EH!"
    fault_general_high := "GH!"
    fault_water_medium := "WM!"
    fault_appliance_medium := "AM!"
    fault_noise_medium := "NM!"
    fault_general_medium := "GM!"
    fault_general_low := "GL!" }

def sampleCtx : BotCtx :=
  { fault_responses := sampleResponses
    llm_reply := fun _ => "LLMREPLY" }

/-- A pending fault report with every contact field already set, for
exercising the follow-up merge on concrete input. -/
def presetReport : FaultReport :=
  { report_id := "fault_1"
    session_id := "s1"
    category := .water
    urgency := .medium
    description := "kranen droppar"
    location := "lgh 1"
    reporter_name := some "Anna"
    reporter_email := some "x@y.se"
    reporter_phone := some "070-123 45 67" }

/-! # Theorems -/

/-- C1: whenever some CRITICAL-tier pattern matches the (lowercased)
input text, `detect_urgency` returns `critical` — the CRITICAL tier is
checked before HIGH and MEDIUM, so any HIGH- or MEDIUM-tier matches in
the same text are irrelevant. -/
theorem claim_C1 (text : String)
    (h : (critical_patterns.any fun p => reSearch false p (pyLowerS text)) = true) :
    detect_urgency text = .critical := by
  simp only [detect_urgency, h, if_true]

/-- Witness for C1 at a concrete input that matches both a CRITICAL
pattern (`akut.*vattenläcka`) and a MEDIUM pattern (`droppar`). -/
theorem claim_C1_witness :
    (critical_patterns.any fun p =>
      reSearch false p (pyLowerS "akut vattenläcka droppar")) = true ∧
    (medium_patterns.any fun p =>
      reSearch false p (pyLowerS "akut vattenläcka droppar")) = true ∧
    detect_urgency "akut vattenläcka droppar" = .critical :=
  ⟨by decide, by decide, claim_C1 "akut vattenläcka droppar" (by decide)⟩

/-- C6: a configured legal keyword occurring as a substring of the
lowercased message makes `should_escalate` return
`(true, legal_threat)`, whatever the intent, sentiment, lead score and
turn count are — the legal-keyword rule is checked first. -/
theorem claim_C6 (trig : EscalationTriggers) (intent sentiment : String)
    (lead_score conversation_turns : Int) (message kw : String)
    (hmem : kw ∈ trig.legal_keywords)
    (hsub : substrOf kw.toList (pyLowerS message) = true) :
    should_escalate trig intent sentiment lead_score conversation_turns message =
      (true, some .legal_threat) := by
  have hany : (trig.legal_keywords.any fun w =>
      substrOf w.toList (pyLowerS message)) = true :=
    List.any_eq_true.mpr ⟨kw, hmem, hsub⟩
  simp only [should_escalate, hany, if_true]

/-- Witness for C6: "konsumentverket" in the message forces a
legal-threat escalation under the default triggers even with an angry
sentiment, a maximal lead score and a high turn count. -/
theorem claim_C6_witness :
    "konsumentverket" ∈ ({} : EscalationTriggers).legal_keywords ∧
    substrOf "konsumentverket".toList
      (pyLowerS "jag är arg och kontaktar Konsumentverket imorgon") = true ∧
    should_escalate {} "complaint" "angry" 5 10
      "jag är arg och kontaktar Konsumentverket imorgon" =
      (true, some .legal_threat) :=
  ⟨by decide, by decide,
   claim_C6 {} "complaint" "angry" 5 10
     "jag är arg och kontaktar Konsumentverket imorgon" "konsumentverket"
     (by decide) (by decide)⟩

/-- The lead score after one `add_message` call. -/
theorem memory_add_message_lead_score (sess : ConversationSession)
    (role content ts : String) (intent sentiment : Option String)
    (lead_score : Option Int) :
    (memory_add_message sess role content ts intent sentiment lead_score).lead_score =
      match lead_score with
      | some n => max sess.lead_score n
      | none => sess.lead_score := by
  simp only [memory_add_message]
  split <;> split <;> split <;> rfl

/-- C4: over any sequence of `add_message` updates, the session's stored
lead score is exactly the running maximum of its initial value and every
supplied score (`None` updates leave it unchanged), hence it never drops
below its historical maximum; a single update yields the maximum of the
previous value and the supplied score. -/
theorem claim_C4 (sess : ConversationSession) (us : List MemoryUpdate) :
    (us.foldl applyUpdate sess).lead_score =
      us.foldl (fun a u =>
        match u.lead_score with
        | some n => max a n
        | none => a) sess.lead_score ∧
    sess.lead_score ≤ (us.foldl applyUpdate sess).lead_score ∧
    ∀ u : MemoryUpdate, (applyUpdate sess u).lead_score =
      match u.lead_score with
      | some n => max sess.lead_score n
      | none => sess.lead_score := by
  refine ⟨?_, ?_, ?_⟩
  · induction us generalizing sess with
    | nil => rfl
    | cons u us ih =>
      simp only [List.foldl_cons]
      rw [ih]
      have h := memory_add_message_lead_score sess u.role u.content u.ts u.intent
        u.sentiment u.lead_score
      simp only [applyUpdate, h]
  · induction us generalizing sess with
    | nil => exact le_refl _
    | cons u us ih =>
      simp only [List.foldl_cons]
      refine le_trans ?_ (ih (applyUpdate sess u))
      rw [show (applyUpdate sess u).lead_score = _ from
        memory_add_message_lead_score sess u.role u.content u.ts u.intent
          u.sentiment u.lead_score]
      cases u.lead_score with
      | none => exact le_refl _
      | some n => exact le_max_left _ _
  · intro u
    exact memory_add_message_lead_score sess u.role u.content u.ts u.intent
      u.sentiment u.lead_score

/-- `appendDescription` only touches the description. -/
theorem appendDescription_fields (r : FaultReport) (m : String) :
    (appendDescription r m).location = r.location ∧
    (appendDescription r m).reporter_email = r.reporter_email ∧
    (appendDescription r m).reporter_phone = r.reporter_phone ∧
    (appendDescription r m).reporter_name = r.reporter_name ∧
    (appendDescription r m).status = r.status ∧
    (appendDescription r m).urgency = r.urgency := by
  simp only [appendDescription]
  split
  · split <;> exact ⟨rfl, rfl, rfl, rfl, rfl, rfl⟩
  · exact ⟨rfl, rfl, rfl, rfl, rfl, rfl⟩

/-- Field behavior of the follow-up merge: each field is taken from the
extraction only when the extracted value is truthy and the stored one is
falsy. -/
theorem mergeExtracted_fields (r : FaultReport) (e : Extracted) :
    (mergeExtracted r e).location =
      (if pyTruthyO e.location && !pyTruthyS r.location then e.location.getD ""
       else r.location) ∧
    (mergeExtracted r e).reporter_email =
      (if pyTruthyO e.email && !pyTruthyO r.reporter_email then e.email
       else r.reporter_email) ∧
    (mergeExtracted r e).reporter_phone =
      (if pyTruthyO e.phone && !pyTruthyO r.reporter_phone then e.phone
       else r.reporter_phone) ∧
    (mergeExtracted r e).reporter_name =
      (if pyTruthyO e.name && !pyTruthyO r.reporter_name then e.name
       else r.reporter_name) := by
  simp only [mergeExtracted]
  split_ifs <;> simp_all

/-- C9: when a follow-up message is merged into an existing open report,
already-set fields survive unchanged (first-write-wins per field), and an
empty field is filled from the newly extracted value when one is
present. -/
theorem claim_C9 (pending : List (String × FaultReport)) (message : String)
    (sd : SessionData) (report0 : FaultReport) (resp : FaultResponses)
    (rid : String) (hp : lookupA pending sd.session_id = some report0) :
    let result := (collect_fault_report resp rid pending message sd).1.report
    let extracted := extract_info_from_message message
    (pyTruthyS report0.location = true → result.location = report0.location) ∧
    (pyTruthyO report0.reporter_email = true →
      result.reporter_email = report0.reporter_email) ∧
    (pyTruthyO report0.reporter_phone = true →
      result.reporter_phone = report0.reporter_phone) ∧
    (pyTruthyO report0.reporter_name = true →
      result.reporter_name = report0.reporter_name) ∧
    (pyTruthyS report0.location = false → pyTruthyO extracted.location = true →
      result.location = extracted.location.getD "") ∧
    (pyTruthyO report0.reporter_email = false → pyTruthyO extracted.email = true →
      result.reporter_email = extracted.email) ∧
    (pyTruthyO report0.reporter_phone = false → pyTruthyO extracted.phone = true →
      result.reporter_phone = extracted.phone) ∧
    (pyTruthyO report0.reporter_name = false → pyTruthyO extracted.name = true →
      result.reporter_name = extracted.name) := by
  intro result extracted
  have hval : result = (collect_fault_report resp rid pending message sd).1.report := rfl
  have hext : extracted = extract_info_from_message message := rfl
  have hres :
      (collect_fault_report resp rid pending message sd).1.report.location =
        (appendDescription (mergeExtracted report0 extracted) message).location ∧
      (collect_fault_report resp rid pending message sd).1.report.reporter_email =
        (appendDescription (mergeExtracted report0 extracted) message).reporter_email ∧
      (collect_fault_report resp rid pending message sd).1.report.reporter_phone =
        (appendDescription (mergeExtracted report0 extracted) message).reporter_phone ∧
      (collect_fault_report resp rid pending message sd).1.report.reporter_name =
        (appendDescription (mergeExtracted report0 extracted) message).reporter_name := by
    rw [hext]
    simp only [collect_fault_report, hp]
    split <;> exact ⟨rfl, rfl, rfl, rfl⟩
  rw [hval]
  obtain ⟨hl, he, hph, hn⟩ := hres
  obtain ⟨al, ae, aph, an, _, _⟩ :=
    appendDescription_fields (mergeExtracted report0 extracted) message
  obtain ⟨ml, me, mph, mn⟩ := mergeExtracted_fields report0 extracted
  rw [hl, he, hph, hn, al, ae, aph, an, ml, me, mph, mn]
  refine ⟨?_, ?_, ?_, ?_, ?_, ?_, ?_, ?_⟩ <;> intro h
  · simp [h]
  · simp [h]
  · simp [h]
  · simp [h]
  · intro h2; simp [h, h2]
  · intro h2; simp [h, h2]
  · intro h2; simp [h, h2]
  · intro h2; simp [h, h2]

/-- Witness for C9: merging the follow-up "ny info: lgh 99, b@c.se"
(which extracts a new location and email) into a fully populated pending
report changes none of its contact fields. -/
theorem claim_C9_witness :
    pyTruthyS presetReport.location = true ∧
    pyTruthyO presetReport.reporter_email = true ∧
    pyTruthyO presetReport.reporter_phone = true ∧
    pyTruthyO presetReport.reporter_name = true ∧
    pyTruthyO (extract_info_from_message "ny info: lgh 99, b@c.se").location = true ∧
    pyTruthyO (extract_info_from_message "ny info: lgh 99, b@c.se").email = true ∧
    (collect_fault_report sampleResponses "fault_2" [("s1", presetReport)]
        "ny info: lgh 99, b@c.se" { session_id := "s1" }).1.report.location =
      presetReport.location ∧
    (collect_fault_report sampleResponses "fault_2" [("s1", presetReport)]
        "ny info: lgh 99, b@c.se" { session_id := "s1" }).1.report.reporter_email =
      presetReport.reporter_email ∧
    (collect_fault_report sampleResponses "fault_2" [("s1", presetReport)]
        "ny info: lgh 99, b@c.se" { session_id := "s1" }).1.report.reporter_phone =
      presetReport.reporter_phone ∧
    (collect_fault_report sampleResponses "fault_2" [("s1", presetReport)]
        "ny info: lgh 99, b@c.se" { session_id := "s1" }).1.report.reporter_name =
      presetReport.reporter_name := by
  have h := claim_C9 [("s1", presetReport)] "ny info: lgh 99, b@c.se"
    { session_id := "s1" } presetReport sampleResponses "fault_2" (by decide)
  exact ⟨by decide, by decide, by decide, by decide, by decide, by decide,
    h.1 (by decide), h.2.1 (by decide), h.2.2.1 (by decide), h.2.2.2.1 (by decide)⟩

/-- C3 (code bug): on a single message that yields a complete report
("Det droppar från kranen i köket, lgh 12, a@b.se" carries a location
and an email), `collect_fault_report` dispatches the email and sheet
notifications but leaves the report's status at "complete"; no code path
ever assigns the documented terminal status "sent". -/
theorem claim_C3 :
    (collect_fault_report sampleResponses "fault_0" []
      "Det droppar från kranen i köket, lgh 12, a@b.se"
      { session_id := "s1" }).1.is_complete = true ∧
    (collect_fault_report sampleResponses "fault_0" []
      "Det droppar från kranen i köket, lgh 12, a@b.se"
      { session_id := "s1" }).1.collect_more_info = false ∧
    (collect_fault_report sampleResponses "fault_0" []
      "Det droppar från kranen i köket, lgh 12, a@b.se"
      { session_id := "s1" }).1.email_sent = true ∧
    (collect_fault_report sampleResponses "fault_0" []
      "Det droppar från kranen i köket, lgh 12, a@b.se"
      { session_id := "s1" }).1.sheet_logged = true ∧
    (collect_fault_report sampleResponses "fault_0" []
      "Det droppar från kranen i köket, lgh 12, a@b.se"
      { session_id := "s1" }).1.report.urgency = .medium ∧
    (collect_fault_report sampleResponses "fault_0" []
      "Det droppar från kranen i köket, lgh 12, a@b.se"
      { session_id := "s1" }).1.report.status = "complete" ∧
    (collect_fault_report sampleResponses "fault_0" []
      "Det droppar från kranen i köket, lgh 12, a@b.se"
      { session_id := "s1" }).1.report.status ≠ "sent" := by
  decide

/-- The classifier's lead score is `_calculate_lead_score` on the
lowercased message. -/
theorem classify_lead_score (m : String) (h : List String) :
    (classify m h).lead_score = calculate_lead_score (pyLowerS m) h := rfl

/-- C8 counterexample: with history `["pricing"]` and current message
"pricing" — two consecutive messages both matching pricing patterns —
the lead score is 1, not at least 3: only one *prior* message matches
the history regex, below the required two. -/
theorem claim_C8_counterexample :
    reSearch false pricing_history_pattern (pyLowerS "pricing") = true ∧
    (lead_triggers.any fun lv =>
      lv.2.any fun p => reSearch true p (pyLowerS "pricing")) = true ∧
    (classify "pricing" []).lead_score = 1 ∧
    (classify "pricing" ["pricing"]).intent = .pricing_question ∧
    (classify "pricing" ["pricing"]).lead_score = 1 := by
  decide

/-- C8 as amended: the floor of 3 applies when at least two of the last
five *history* messages match the pricing regex; the current message
does not count towards the two. -/
theorem claim_C8 (msg : String) (hist : List String)
    (h : 2 ≤ ((lastN 5 hist).filter fun m =>
      reSearch false pricing_history_pattern (pyLowerS m)).length) :
    3 ≤ (classify msg hist).lead_score := by
  have hne : hist.isEmpty = false := by
    cases hist with
    | nil => simp [lastN] at h
    | cons a l => rfl
  rw [classify_lead_score]
  unfold calculate_lead_score
  simp only [hne, Bool.not_false, if_true]
  rw [if_pos h]
  refine le_min ?_ (by norm_num)
  split
  · split
    · exact le_max_of_le_left (le_trans (by norm_num) (le_max_right _ _))
    · exact le_max_of_le_left (le_max_right _ _)
  · split
    · exact le_trans (by norm_num) (le_max_right _ _)
    · exact le_max_right _ _

/-- Witness for C8: two prior pricing messages floor the score of an
otherwise scoreless message at 3. -/
theorem claim_C8_witness :
    2 ≤ ((lastN 5 ["pricing", "pricing"]).filter fun m =>
      reSearch false pricing_history_pattern (pyLowerS m)).length ∧
    3 ≤ (classify "zq" ["pricing", "pricing"]).lead_score :=
  ⟨by decide, claim_C8 "zq" ["pricing", "pricing"] (by decide)⟩

/-- An `Int` fold whose step never decreases stays above its start. -/
theorem foldl_int_lb {α : Type} (g : Int → α → Int)
    (hg : ∀ sc a, sc ≤ g sc a) :
    ∀ (l : List α) (init : Int), init ≤ l.foldl g init := by
  intro l
  induction l with
  | nil => intro init; exact le_refl _
  | cons a l ih => intro init; exact le_trans (hg init a) (ih (g init a))

theorem create_response_lead_score (reply intent : String) (confidence : ℚ)
    (sentiment : String) (lead_score : Int) (escalate : Bool) (action : String)
    (sr : Option (List String)) (es : Option String) :
    (create_response reply intent confidence sentiment lead_score escalate
      action sr es).lead_score = lead_score := rfl

/-- The step of the lead-trigger fold never decreases the score. -/
theorem lead_step_mono (m : List Char) : ∀ (sc : Int) (lv : Int × List RE),
    sc ≤ if lv.2.any fun p => reSearch true p m then max sc lv.1 else sc := by
  intro sc lv
  split
  · exact le_max_left _ _
  · exact le_refl _

/-- `_calculate_lead_score` always lands in `[0, 5]`. -/
theorem calculate_lead_score_bounds (m : List Char) (hist : List String) :
    0 ≤ calculate_lead_score m hist ∧ calculate_lead_score m hist ≤ 5 := by
  constructor
  · unfold calculate_lead_score
    have h1 : (0 : Int) ≤ lead_triggers.foldl
        (fun sc lv => if lv.2.any fun p => reSearch true p m then max sc lv.1 else sc)
        0 := foldl_int_lb _ (lead_step_mono m) lead_triggers 0
    refine le_min ?_ (by norm_num)
    dsimp only
    repeat' split
    all_goals omega
  · exact min_le_right _ _

/-- Every entry of the local model's pattern table has a lead score in
`[0, 5]`. -/
theorem local_patterns_lead_bounds (cn : String) :
    ∀ e ∈ local_patterns cn, 0 ≤ e.lead_score ∧ e.lead_score ≤ 5 := by
  have hb : ((local_patterns cn).all fun e =>
      decide (0 ≤ e.lead_score) && decide (e.lead_score ≤ 5)) = true := rfl
  intro e he
  have h := List.all_eq_true.mp hb e he
  simp only [Bool.and_eq_true, decide_eq_true_eq] at h
  exact h

/-- `LocalModel.generate` returns a lead score in `[0, 5]`. -/
theorem local_generate_lead_bounds (cn msg : String) :
    0 ≤ (local_generate cn msg).lead_score ∧
    (local_generate cn msg).lead_score ≤ 5 := by
  unfold local_generate
  cases hf : (local_patterns cn).find? fun e =>
      reSearch false e.pat (pyLowerS msg) with
  | some e =>
    simp only [hf]
    exact local_patterns_lead_bounds cn e (List.mem_of_find?_eq_some hf)
  | none =>
    simp only [hf]
    cases (local_fallbacks.find? fun f => reSearch true f.1 (pyLowerS msg)) <;>
      exact ⟨by norm_num, by norm_num⟩

/-- C2 counterexample: a message matching no lead trigger reaches the
pipeline's public interface with lead score 0, not 1. -/
theorem claim_C2_counterexample :
    (classify "zq" []).lead_score = 0 ∧
    (process_message sampleCtx {} "zq" "s1" []).1.lead_score = 0 ∧
    (process_message sampleCtx {} "zq" "s1" []).1.intent = "general_inquiry" := by
  decide

/-- C2 as amended: the lead score returned at the pipeline's public
interface is an integer in `[0, 5]` — the cap of 5 always holds, but the
lower end is 0 (when no trigger or boost applies), not 1. -/
theorem claim_C2 (ctx : BotCtx) (st : BotState) (msg sid : String)
    (hist : List String) :
    0 ≤ (process_message ctx st msg sid hist).1.lead_score ∧
    (process_message ctx st msg sid hist).1.lead_score ≤ 5 := by
  rcases hpi : process_input st.rate_limiter msg sid ctx.now with ⟨ok, san, err, rl⟩
  cases ok with
  | false =>
    simp only [process_message, hpi, create_response_lead_score]
    exact ⟨by norm_num, by norm_num⟩
  | true =>
    simp only [process_message, hpi]
    split
    · simp only [create_response_lead_score]
      exact ⟨by norm_num, by norm_num⟩
    · split
      · simp only [create_response_lead_score]
        exact local_generate_lead_bounds _ _
      · split
        · simp only [create_response_lead_score, classify_lead_score]
          exact calculate_lead_score_bounds _ _
        · simp only [create_response_lead_score, classify_lead_score]
          exact calculate_lead_score_bounds _ _

/-- One allowed `check` step from a single-identifier state: inside the
minute window and under both caps, the call is allowed and appends its
timestamp. -/
theorem rate_check_allowed (N M : ℕ) (id1 : String) (now : ℚ)
    (acc : List ℚ) (t : ℚ)
    (hacc : ∀ x ∈ acc, now - 60 < x ∧ x ≤ now)
    (ht : now - 60 < t ∧ t ≤ now) (hltN : acc.length < N) (hltM : acc.length < M) :
    rate_check
      { max_per_minute := N, max_per_hour := M,
        requests := fun k => if k = id1 then acc else [] } id1 t =
    (true, none,
      { max_per_minute := N, max_per_hour := M,
        requests := fun k => if k = id1 then acc ++ [t] else [] }) := by
  have h3600 : (acc.filter fun x => decide (t - x < 3600)) = acc := by
    apply List.filter_eq_self.mpr
    intro x hx
    have hx1 := hacc x hx
    exact decide_eq_true (by linarith [hx1.1, hx1.2, ht.1, ht.2] : t - x < 3600)
  have hrecent : (acc.filter fun x => decide (x > t - 60)) = acc := by
    apply List.filter_eq_self.mpr
    intro x hx
    have hx1 := hacc x hx
    exact decide_eq_true (by linarith [hx1.1, ht.2] : x > t - 60)
  simp only [rate_check, eq_self_iff_true, if_true, h3600, hrecent]
  rw [if_neg (by omega), if_neg (by omega)]
  congr 2
  congr 1
  funext k
  by_cases hk : k = id1 <;> simp [hk]

/-- A run of `check` calls for one identifier, all inside the minute
window and within capacity, is fully allowed and appends exactly its
timestamps to that identifier's history. -/
theorem rate_run_fills (N M : ℕ) (id1 : String) (now : ℚ) :
    ∀ (ts acc : List ℚ),
    (∀ t ∈ acc, now - 60 < t ∧ t ≤ now) →
    (∀ t ∈ ts, now - 60 < t ∧ t ≤ now) →
    acc.length + ts.length ≤ N → N ≤ M →
    rate_run
      { max_per_minute := N, max_per_hour := M,
        requests := fun k => if k = id1 then acc else [] } id1 ts =
    (true,
      { max_per_minute := N, max_per_hour := M,
        requests := fun k => if k = id1 then acc ++ ts else [] }) := by
  intro ts
  induction ts with
  | nil =>
    intro acc _ _ _ _
    simp only [rate_run, List.append_nil]
  | cons t ts ih =>
    intro acc hacc hts hlen hNM
    have ht := hts t (List.mem_cons_self t ts)
    have hlc : acc.length + (t :: ts).length ≤ N := hlen
    simp only [List.length_cons] at hlc
    have hcheck := rate_check_allowed N M id1 now acc t hacc ht
      (by omega) (by omega)
    have hstep : rate_run
        { max_per_minute := N, max_per_hour := M,
          requests := fun k => if k = id1 then acc else [] } id1 (t :: ts) =
        rate_run
          { max_per_minute := N, max_per_hour := M,
            requests := fun k => if k = id1 then acc ++ [t] else [] } id1 ts := by
      simp only [rate_run, hcheck, Bool.true_and]
    rw [hstep]
    have hacc' : ∀ x ∈ acc ++ [t], now - 60 < x ∧ x ≤ now := by
      intro x hx
      rcases List.mem_append.mp hx with h | h
      · exact hacc x h
      · rw [List.mem_singleton.mp h]; exact ht
    have hts' : ∀ x ∈ ts, now - 60 < x ∧ x ≤ now :=
      fun x hx => hts x (List.mem_cons_of_mem t hx)
    have hlen' : (acc ++ [t]).length + ts.length ≤ N := by
      simp only [List.length_append, List.length_singleton]
      omega
    rw [ih (acc ++ [t]) hacc' hts' hlen' hNM]
    simp only [List.append_assoc, List.singleton_append]

/-- C5: starting from an empty limiter with per-minute cap `N` (and hour
cap `M ≥ N`), `N` requests from one identifier inside the minute window
are all allowed; the `(N+1)`-th request from that identifier in the same
window is rejected, while the same request from a different identifier is
still allowed; and the rejection records nothing — neither identifier's
stored history changes. -/
theorem claim_C5 (N M : ℕ) (ts : List ℚ) (now : ℚ) (id1 id2 : String)
    (hN : 1 ≤ N) (hNM : N ≤ M) (hlen : ts.length = N)
    (hwin : ∀ t ∈ ts, now - 60 < t ∧ t ≤ now) (hid : id1 ≠ id2) :
    (rate_run { max_per_minute := N, max_per_hour := M } id1 ts).1 = true ∧
    (rate_check (rate_run { max_per_minute := N, max_per_hour := M } id1 ts).2
      id1 now).1 = false ∧
    (rate_check (rate_run { max_per_minute := N, max_per_hour := M } id1 ts).2
      id2 now).1 = true ∧
    ((rate_check (rate_run { max_per_minute := N, max_per_hour := M } id1 ts).2
      id1 now).2.2).requests id1 =
      (rate_run { max_per_minute := N, max_per_hour := M } id1 ts).2.requests id1 ∧
    ((rate_check (rate_run { max_per_minute := N, max_per_hour := M } id1 ts).2
      id1 now).2.2).requests id2 =
      (rate_run { max_per_minute := N, max_per_hour := M } id1 ts).2.requests id2 := by
  have hrl0 : ({ max_per_minute := N, max_per_hour := M } : RateLimiter) =
      { max_per_minute := N, max_per_hour := M,
        requests := fun k => if k = id1 then [] else [] } := by
    congr 1
    funext k
    split <;> rfl
  have hrun := rate_run_fills N M id1 now ts [] (by intro t ht; cases ht) hwin
    (by simpa using hlen.le) hNM
  rw [hrl0, hrun]
  have hts3600 : (ts.filter fun x => decide (now - x < 3600)) = ts := by
    apply List.filter_eq_self.mpr
    intro x hx
    have hx1 := hwin x hx
    exact decide_eq_true (by linarith [hx1.1] : now - x < 3600)
  have htsrec : (ts.filter fun x => decide (x > now - 60)) = ts := by
    apply List.filter_eq_self.mpr
    intro x hx
    exact decide_eq_true (hwin x hx).1
  have hid2 : ¬(id2 = id1) := fun h => hid h.symm
  refine ⟨rfl, ?_, ?_, ?_, ?_⟩
  · simp only [rate_check, eq_self_iff_true, if_true, List.nil_append,
      hts3600, htsrec]
    rw [if_pos (by omega : ts.length ≥ N)]
  · simp only [rate_check, if_neg hid2, List.filter_nil, List.length_nil]
    rw [if_neg (by omega), if_neg (by omega)]
  · simp only [rate_check, eq_self_iff_true, if_true, List.nil_append,
      hts3600, htsrec]
    rw [if_pos (by omega : ts.length ≥ N)]
    simp
  · simp only [rate_check, eq_self_iff_true, if_true, List.nil_append,
      hts3600, htsrec]
    rw [if_pos (by omega : ts.length ≥ N)]
    simp [hid2]

/-- Witness for C5 with per-minute cap 2: requests at times 100 and 101
are allowed, a third at time 101 from "a" is rejected while "b" passes,
and the rejection leaves both histories unchanged. -/
theorem claim_C5_witness :
    (rate_run { max_per_minute := 2, max_per_hour := 3 } "a" [100, 101]).1 = true ∧
    (rate_check (rate_run { max_per_minute := 2, max_per_hour := 3 } "a" [100, 101]).2
      "a" 101).1 = false ∧
    (rate_check (rate_run { max_per_minute := 2, max_per_hour := 3 } "a" [100, 101]).2
      "b" 101).1 = true ∧
    ((rate_check (rate_run { max_per_minute := 2, max_per_hour := 3 } "a" [100, 101]).2
      "a" 101).2.2).requests "a" =
      (rate_run { max_per_minute := 2, max_per_hour := 3 } "a" [100, 101]).2.requests "a" ∧
    ((rate_check (rate_run { max_per_minute := 2, max_per_hour := 3 } "a" [100, 101]).2
      "a" 101).2.2).requests "b" =
      (rate_run { max_per_minute := 2, max_per_hour := 3 } "a" [100, 101]).2.requests "b" :=
  claim_C5 2 3 [100, 101] 101 "a" "b" (by norm_num) (by norm_num) (by norm_num)
    (by
      intro t ht
      simp only [List.mem_cons, List.mem_singleton, List.not_mem_nil,
        or_false] at ht
      rcases ht with rfl | rfl
      · constructor <;> norm_num
      · constructor <;> norm_num)
    (by decide)

theorem create_response_reply (reply intent : String) (confidence : ℚ)
    (sentiment : String) (lead_score : Int) (escalate : Bool) (action : String)
    (sr : Option (List String)) (es : Option String) :
    (create_response reply intent confidence sentiment lead_score escalate
      action sr es).reply = reply := rfl

/-- When the security filter passes a message and the rate limiter
allows it, `process_input` hands the message through unchanged. -/
theorem process_input_safe (rl : RateLimiter) (msg sid : String) (now : ℚ)
    (hrl : (rate_check rl sid now).1 = true)
    (hsec : injection_check msg = .safe) :
    process_input rl msg sid now = (true, msg, none, (rate_check rl sid now).2.2) := by
  rcases hrc : rate_check rl sid now with ⟨ok, reason, rl1⟩
  rw [hrc] at hrl
  simp only at hrl
  subst hrl
  simp only [process_input, hrc, hsec, sanitize]
  rfl

/-- A fresh report carries `detect_urgency` of its message. -/
theorem collect_new_urgency (resp : FaultResponses) (rid : String)
    (pending : List (String × FaultReport)) (m : String) (sd : SessionData)
    (hp : lookupA pending sd.session_id = none) :
    (collect_fault_report resp rid pending m sd).1.report.urgency =
      detect_urgency m := by
  simp only [collect_fault_report, hp]
  split <;> rfl

/-- Whenever `collect_fault_report` asks for more information, its
response already ends with the numbered questions for its report. -/
theorem collect_more_info_response (resp : FaultResponses) (rid : String)
    (pending : List (String × FaultReport)) (m : String) (sd : SessionData)
    (h : (collect_fault_report resp rid pending m sd).1.collect_more_info = true) :
    ∃ base, (collect_fault_report resp rid pending m sd).1.response =
      base ++ follow_up_for (collect_fault_report resp rid pending m sd).1.report := by
  rcases hp : lookupA pending sd.session_id with _ | report0
  · simp only [collect_fault_report, hp] at h ⊢
    split at h
    next hc => simp at h
    next hc => rw [if_neg hc]; exact ⟨_, rfl⟩
  · simp only [collect_fault_report, hp] at h ⊢
    split at h
    next hc => simp at h
    next hc => rw [if_neg hc]; exact ⟨resp.waiting_for_info, rfl⟩

/-- Creating or fetching a session never touches `pending_reports`. -/
theorem get_or_create_pending (ctx : BotCtx) (s : BotState) (i : String) :
    (get_or_create_session ctx s i).2.pending_reports = s.pending_reports := by
  simp only [get_or_create_session]
  cases hls : lookupS s.sessions i <;> simp only [hls]

theorem lookupAttr_nil (k : String) : lookupAttr [] k = none := rfl

/-- C7 as amended: the fast path fires on exactly the messages (past
security, with no pending report and LOW fault urgency) that match any
of the local model's patterns anywhere — including compound messages
mixing a fast-path pattern with fault or escalation language — and
short-circuits the pipeline with the local model's canned result. -/
theorem claim_C7 (ctx : BotCtx) (st : BotState) (msg sid : String)
    (hist : List String)
    (hrl : (rate_check st.rate_limiter sid ctx.now).1 = true)
    (hsec : injection_check msg = .safe)
    (hpend : lookupA st.pending_reports sid = none)
    (hurg : detect_urgency msg = .low)
    (hcan : can_handle ctx.company_name msg = true) :
    (process_message ctx st msg sid hist).1 =
      create_response (local_generate ctx.company_name msg).response
        (local_generate ctx.company_name msg).intent
        (local_generate ctx.company_name msg).confidence "neutral"
        (local_generate ctx.company_name msg).lead_score
        (local_generate ctx.company_name msg).escalate
        (if (local_generate ctx.company_name msg).escalate then "escalate"
         else "none") := by
  have hpi := process_input_safe st.rate_limiter msg sid ctx.now hrl hsec
  simp only [process_message, hpi, get_or_create_pending]
  have hu := collect_new_urgency ctx.fault_responses ctx.new_report_id
    st.pending_reports msg
    { session_id := sid
      customer_name := lookupAttr (get_or_create_session ctx
        { st with rate_limiter := (rate_check st.rate_limiter sid ctx.now).2.2 }
        sid).1.attrs "customer_name"
      customer_email := lookupAttr (get_or_create_session ctx
        { st with rate_limiter := (rate_check st.rate_limiter sid ctx.now).2.2 }
        sid).1.attrs "customer_email"
      customer_phone := lookupAttr (get_or_create_session ctx
        { st with rate_limiter := (rate_check st.rate_limiter sid ctx.now).2.2 }
        sid).1.attrs "customer_phone" } hpend
  rw [hurg] at hu
  simp only [hu, ne_eq, not_true, if_false]
  rw [if_pos hcan]

/-- C7 counterexample: "hej, jag vill prata med chefen" mixes a greeting
with escalation language ("chef" is a configured manager keyword), yet
the fast path fires and short-circuits the pipeline with the canned
greeting reply. -/
theorem claim_C7_counterexample :
    substrOf "chef".toList (pyLowerS "hej, jag vill prata med chefen") = true ∧
    "chef" ∈ ({} : EscalationTriggers).manager_keywords ∧
    detect_urgency "hej, jag vill prata med chefen" = .low ∧
    can_handle "Vallhamragruppen AB" "hej, jag vill prata med chefen" = true ∧
    (process_message sampleCtx {} "hej, jag vill prata med chefen" "s1" []).1.reply =
      "Hej! Vallhamragruppen här. Vad kan jag hjälpa med?" ∧
    (process_message sampleCtx {} "hej, jag vill prata med chefen" "s1" []).1.intent =
      "greeting" := by
  decide

/-- Witness for C7 (as amended) at the same compound message. -/
theorem claim_C7_witness :
    (rate_check ({} : BotState).rate_limiter "s1" sampleCtx.now).1 = true ∧
    injection_check "hej, jag vill prata med chefen" = .safe ∧
    lookupA ({} : BotState).pending_reports "s1" = none ∧
    detect_urgency "hej, jag vill prata med chefen" = .low ∧
    can_handle sampleCtx.company_name "hej, jag vill prata med chefen" = true ∧
    (process_message sampleCtx {} "hej, jag vill prata med chefen" "s1" []).1 =
      create_response
        (local_generate sampleCtx.company_name "hej, jag vill prata med chefen").response
        (local_generate sampleCtx.company_name "hej, jag vill prata med chefen").intent
        (local_generate sampleCtx.company_name "hej, jag vill prata med chefen").confidence
        "neutral"
        (local_generate sampleCtx.company_name "hej, jag vill prata med chefen").lead_score
        (local_generate sampleCtx.company_name "hej, jag vill prata med chefen").escalate
        (if (local_generate sampleCtx.company_name "hej, jag vill prata med chefen").escalate
         then "escalate" else "none") :=
  ⟨by decide, by decide, rfl, by decide, by decide,
   claim_C7 sampleCtx {} "hej, jag vill prata med chefen" "s1" []
     (by decide) (by decide) rfl (by decide) (by decide)⟩

/-- C10: whenever a fault-bearing message (urgency above LOW, here for a
fresh session) leaves the report incomplete, the pipeline's reply is the
fault system's response — which already ends with the numbered
missing-information questions — with the same numbered questions
appended once more by the pipeline. -/
theorem claim_C10 (ctx : BotCtx) (st : BotState) (msg sid : String)
    (hist : List String)
    (hrl : (rate_check st.rate_limiter sid ctx.now).1 = true)
    (hsec : injection_check msg = .safe)
    (hsess : lookupS st.sessions sid = none)
    (hurg : (collect_fault_report ctx.fault_responses ctx.new_report_id
      st.pending_reports msg { session_id := sid }).1.report.urgency ≠ .low)
    (hmore : (collect_fault_report ctx.fault_responses ctx.new_report_id
      st.pending_reports msg { session_id := sid }).1.collect_more_info = true) :
    (process_message ctx st msg sid hist).1.reply =
      (collect_fault_report ctx.fault_responses ctx.new_report_id
        st.pending_reports msg { session_id := sid }).1.response ++
      follow_up_for (collect_fault_report ctx.fault_responses ctx.new_report_id
        st.pending_reports msg { session_id := sid }).1.report ∧
    ∃ base, (collect_fault_report ctx.fault_responses ctx.new_report_id
      st.pending_reports msg { session_id := sid }).1.response =
      base ++ follow_up_for (collect_fault_report ctx.fault_responses
        ctx.new_report_id st.pending_reports msg { session_id := sid }).1.report := by
  have hpi := process_input_safe st.rate_limiter msg sid ctx.now hrl hsec
  have hso : lookupS ({ st with
      rate_limiter := (rate_check st.rate_limiter sid ctx.now).2.2 } :
      BotState).sessions sid = none := hsess
  constructor
  · simp only [process_message, hpi, get_or_create_session, hso, lookupAttr_nil]
    rw [if_pos hurg, if_pos hmore, create_response_reply]
  · exact collect_more_info_response ctx.fault_responses ctx.new_report_id
      st.pending_reports msg { session_id := sid } hmore

/-- Witness for C10: "Kranen droppar lite" (MEDIUM water fault, no
location or contact info) on a fresh session. -/
theorem claim_C10_witness :
    (rate_check ({} : BotState).rate_limiter "s1" sampleCtx.now).1 = true ∧
    injection_check "Kranen droppar lite" = .safe ∧
    (collect_fault_report sampleCtx.fault_responses sampleCtx.new_report_id
      ({} : BotState).pending_reports "Kranen droppar lite"
      { session_id := "s1" }).1.report.urgency ≠ .low ∧
    (collect_fault_report sampleCtx.fault_responses sampleCtx.new_report_id
      ({} : BotState).pending_reports "Kranen droppar lite"
      { session_id := "s1" }).1.collect_more_info = true ∧
    ((process_message sampleCtx {} "Kranen droppar lite" "s1" []).1.reply =
      (collect_fault_report sampleCtx.fault_responses sampleCtx.new_report_id
        ({} : BotState).pending_reports "Kranen droppar lite"
        { session_id := "s1" }).1.response ++
      follow_up_for (collect_fault_report sampleCtx.fault_responses
        sampleCtx.new_report_id ({} : BotState).pending_reports
        "Kranen droppar lite" { session_id := "s1" }).1.report ∧
     ∃ base, (collect_fault_report sampleCtx.fault_responses
        sampleCtx.new_report_id ({} : BotState).pending_reports
        "Kranen droppar lite" { session_id := "s1" }).1.response =
       base ++ follow_up_for (collect_fault_report sampleCtx.fault_responses
         sampleCtx.new_report_id ({} : BotState).pending_reports
         "Kranen droppar lite" { session_id := "s1" }).1.report) :=
  ⟨by decide, by decide, by decide, by decide,
   claim_C10 sampleCtx {} "Kranen droppar lite" "s1" []
     (by decide) (by decide) rfl (by decide) (by decide)⟩

end SupportBot
